import Mathlib

set_option maxRecDepth 100000

/-!
Verification of the key-derivation and cache-reconciliation engine of
GNOME libmediaart, embedded shallowly from `src/libmediaart/cache.c` and
`src/libmediaart/extract.c`.

Strings are modelled as `List Char` (one element per Unicode character,
matching the g_utf8_* iteration in the C code; byte offsets in the C code
only ever serve to compare and split at character boundaries, so character
indices are an exact model). GLib Unicode primitives (`g_utf8_strdown`,
`g_utf8_normalize`) are library collaborators external to this repository;
they are modelled on the ASCII range (identity beyond it), which covers all
concrete inputs of the specification. MD5 (`GChecksum`) is implemented in
full. Filesystem-facing functions are embedded as explicit state passing
over a small filesystem model defined further below.
-/

namespace Mediaart

/-- Model of `g_utf8_strdown` on one character. Modelled from the spec:
locale-independent Unicode lowercasing (GLib, external to this repository),
given here on the Basic Latin range `A`-`Z` and the identity elsewhere. -/
def charDown (c : Char) : Char :=
  if 65 ≤ c.toNat ∧ c.toNat ≤ 90 then Char.ofNat (c.toNat + 32) else c

/-- `g_utf8_strdown` lowercases every character of the string. -/
def g_utf8_strdown (l : List Char) : List Char :=
  l.map charDown

/-- Embeds `media_art_strip_find_next_block` (cache.c:66-100): the position of
the first occurrence of `openC`, paired with the position of the first
occurrence of `closeC` strictly after it; `none` when either is missing. -/
def media_art_strip_find_next_block (l : List Char) (openC closeC : Char) :
    Option (Nat × Nat) :=
  match List.findIdx? (· = openC) l with
  | none => none
  | some i =>
    match List.findIdx? (· = closeC) (l.drop (i + 1)) with
    | none => none
    | some j => some (i, i + 1 + j)

/-- The four bracket kinds of the `blocks` table (cache.c:138-144). -/
def blockPairs : List (Char × Char) :=
  [('(', ')'), ('{', '}'), ('[', ']'), ('<', '>')]

/-- The earliest matched block among the four kinds: the inner loop of
`media_art_strip_invalid_entities` (cache.c:161-171), keeping the block with
the strictly smallest start position, first listed kind winning ties. -/
def findEarliestBlock (l : List Char) : Option (Nat × Nat) :=
  blockPairs.foldl
    (fun acc bp =>
      match media_art_strip_find_next_block l bp.1 bp.2 with
      | none => acc
      | some (s, e) =>
        match acc with
        | none => some (s, e)
        | some (s0, e0) => if s < s0 then some (s, e) else some (s0, e0))
    none

/-- The block-removal loop of `media_art_strip_invalid_entities`
(cache.c:155-191): keep the text before the earliest block, resume after its
closing character. Each iteration consumes at least the open and the close
character, so the loop runs at most `l.length` times; the fuel argument makes
that explicit (the C loop terminates for the same reason). -/
def removeBlocksFuel : Nat → List Char → List Char
  | 0, l => l
  | n + 1, l =>
    match findEarliestBlock l with
    | none => l
    | some (s, e) => l.take s ++ removeBlocksFuel n (l.drop (e + 1))

/-- Block removal with adequate fuel. -/
def removeBlocks (l : List Char) : List Char :=
  removeBlocksFuel l.length l

/-- The characters of `invalid_chars` (cache.c:134), i.e.
`()[]<>{}_!@#$^&*+=|\/"'?~`; `Char.ofNat 34` is the double quote and
`Char.ofNat 39` the single quote. -/
def invalid_chars : List Char :=
  ['(', ')', '[', ']', '<', '>', '{', '}', '_', '!', '@', '#', '$', '^', '&',
   '*', '+', '=', '|', '\\', '/', Char.ofNat 34, Char.ofNat 39, '?', '~']

/-- Whether a character belongs to `invalid_chars`. -/
def isInvalidChar (c : Char) : Bool :=
  invalid_chars.contains c

/-- The tab conversion step (cache.c:204-209): `g_strdelimit` turns each tab
into a space, and the subsequent split-and-rejoin on a single space is the
identity, so the net effect is tab-to-space. -/
def convertChar (c : Char) : Char :=
  if c = '\t' then ' ' else c

/-- Whether the string contains two adjacent spaces, i.e. whether
`g_strrstr (str, "  ")` is non-NULL (cache.c:211). -/
def hasDoubleSpace : List Char → Bool
  | [] => false
  | [_] => false
  | a :: b :: rest => (a == ' ' && b == ' ') || hasDoubleSpace (b :: rest)

/-- One pass of `g_strsplit (str, "  ", -1)` followed by `g_strjoinv (" ")`
(cache.c:213-215): every non-overlapping occurrence of two spaces, scanned
left to right, becomes one space. -/
def collapseOnce : List Char → List Char
  | ' ' :: ' ' :: rest => ' ' :: collapseOnce rest
  | c :: rest => c :: collapseOnce rest
  | [] => []

/-- The double-space loop of `media_art_strip_invalid_entities`
(cache.c:211-217), with explicit fuel: each pass with a double space present
shortens the string, so `l.length` passes suffice (the C loop terminates for
the same reason). -/
def collapseLoop : Nat → List Char → List Char
  | 0, l => l
  | n + 1, l => if hasDoubleSpace l then collapseLoop n (collapseOnce l) else l

/-- The double-space loop with adequate fuel. -/
def collapseSpaces (l : List Char) : List Char :=
  collapseLoop l.length l

/-- `g_ascii_isspace`: space, tab, newline, carriage return, form feed,
vertical tab. -/
def isAsciiSpace (c : Char) : Bool :=
  (c == ' ') || (c == '\t') || (c == '\n') || (c == Char.ofNat 13) ||
    (c == Char.ofNat 12) || (c == Char.ofNat 11)

/-- `g_strchug`: removal of leading whitespace. -/
def g_strchug (l : List Char) : List Char :=
  l.dropWhile isAsciiSpace

/-- `g_strchomp`: removal of trailing whitespace. -/
def g_strchomp (l : List Char) : List Char :=
  (l.reverse.dropWhile isAsciiSpace).reverse

/-- `g_strstrip` (cache.c:220): removal of leading and trailing whitespace. -/
def g_strstrip (l : List Char) : List Char :=
  g_strchomp (g_strchug l)

/-- The body of `media_art_strip_invalid_entities` (cache.c:126-223) on the
character list: remove bracketed blocks, lowercase, delete invalid
characters, convert tabs to spaces, collapse double spaces, trim. -/
def stripChars (l : List Char) : List Char :=
  g_strstrip (collapseSpaces (List.map convertChar
    (List.filter (fun c => !(isInvalidChar c)) (g_utf8_strdown (removeBlocks l)))))

/-- `media_art_strip_invalid_entities` on strings. The NULL input case of the
C function is not modelled: every Lean `String` is a present, valid UTF-8
string. -/
def media_art_strip_invalid_entities (s : String) : String :=
  String.mk (stripChars s.data)

/-! ### MD5 (`GChecksum` with `G_CHECKSUM_MD5`)

The checksum collaborator is GLib's MD5; it is implemented here in full over
byte lists, with 32-bit words as `Nat` reduced modulo `2^32`. -/

/-- Addition modulo `2^32`. -/
def add32 (a b : Nat) : Nat :=
  (a + b) % 4294967296

/-- Bitwise complement on 32 bits. -/
def not32 (a : Nat) : Nat :=
  a ^^^ 4294967295

/-- Left rotation of a 32-bit word. -/
def rotl32 (x n : Nat) : Nat :=
  ((x <<< n) ||| (x >>> (32 - n))) % 4294967296

/-- The 64 MD5 sine-derived constants. -/
def md5K : List Nat :=
  [0xd76aa478, 0xe8c7b756, 0x242070db, 0xc1bdceee,
   0xf57c0faf, 0x4787c62a, 0xa8304613, 0xfd469501,
   0x698098d8, 0x8b44f7af, 0xffff5bb1, 0x895cd7be,
   0x6b901122, 0xfd987193, 0xa679438e, 0x49b40821,
   0xf61e2562, 0xc040b340, 0x265e5a51, 0xe9b6c7aa,
   0xd62f105d, 0x02441453, 0xd8a1e681, 0xe7d3fbc8,
   0x21e1cde6, 0xc33707d6, 0xf4d50d87, 0x455a14ed,
   0xa9e3e905, 0xfcefa3f8, 0x676f02d9, 0x8d2a4c8a,
   0xfffa3942, 0x8771f681, 0x6d9d6122, 0xfde5380c,
   0xa4beea44, 0x4bdecfa9, 0xf6bb4b60, 0xbebfbc70,
   0x289b7ec6, 0xeaa127fa, 0xd4ef3085, 0x04881d05,
   0xd9d4d039, 0xe6db99e5, 0x1fa27cf8, 0xc4ac5665,
   0xf4292244, 0x432aff97, 0xab9423a7, 0xfc93a039,
   0x655b59c3, 0x8f0ccc92, 0xffeff47d, 0x85845dd1,
   0x6fa87e4f, 0xfe2ce6e0, 0xa3014314, 0x4e0811a1,
   0xf7537e82, 0xbd3af235, 0x2ad7d2bb, 0xeb86d391]

/-- The 64 MD5 per-round rotation amounts. -/
def md5S : List Nat :=
  [7, 12, 17, 22, 7, 12, 17, 22, 7, 12, 17, 22, 7, 12, 17, 22,
   5, 9, 14, 20, 5, 9, 14, 20, 5, 9, 14, 20, 5, 9, 14, 20,
   4, 11, 16, 23, 4, 11, 16, 23, 4, 11, 16, 23, 4, 11, 16, 23,
   6, 10, 15, 21, 6, 10, 15, 21, 6, 10, 15, 21, 6, 10, 15, 21]

/-- The MD5 nonlinear function of step `i`. -/
def md5F (i b c d : Nat) : Nat :=
  if i < 16 then (b &&& c) ||| (not32 b &&& d)
  else if i < 32 then (d &&& b) ||| (not32 d &&& c)
  else if i < 48 then b ^^^ c ^^^ d
  else c ^^^ (b ||| not32 d)

/-- The MD5 message-word index of step `i`. -/
def md5G (i : Nat) : Nat :=
  if i < 16 then i
  else if i < 32 then (5 * i + 1) % 16
  else if i < 48 then (3 * i + 5) % 16
  else (7 * i) % 16

/-- One MD5 step on the state `(a, b, c, d)` with message words `m`. -/
def md5Step (m : List Nat) (st : Nat × Nat × Nat × Nat) (i : Nat) :
    Nat × Nat × Nat × Nat :=
  let f := add32 (add32 (add32 st.1 (md5F i st.2.1 st.2.2.1 st.2.2.2))
    (md5K.getD i 0)) (m.getD (md5G i) 0)
  (st.2.2.2, add32 st.2.1 (rotl32 f (md5S.getD i 0)), st.2.1, st.2.2.1)

/-- One 64-byte MD5 chunk, given as its sixteen 32-bit words. -/
def md5Chunk (st : Nat × Nat × Nat × Nat) (m : List Nat) :
    Nat × Nat × Nat × Nat :=
  let r := (List.range 64).foldl (md5Step m) st
  (add32 st.1 r.1, add32 st.2.1 r.2.1, add32 st.2.2.1 r.2.2.1,
   add32 st.2.2.2 r.2.2.2)

/-- Little-endian bytes of `n`, `count` bytes long. -/
def leBytes (n count : Nat) : List Nat :=
  match count with
  | 0 => []
  | k + 1 => n % 256 :: leBytes (n / 256) k

/-- Groups of four bytes as little-endian 32-bit words. -/
def toWords : List Nat → List Nat
  | b0 :: b1 :: b2 :: b3 :: rest =>
    (b0 + 256 * b1 + 65536 * b2 + 16777216 * b3) :: toWords rest
  | _ => []

/-- MD5 padding: a `0x80` byte, zeros to 56 mod 64, then the bit length as
eight little-endian bytes. -/
def md5Pad (msg : List Nat) : List Nat :=
  let zeros := (120 - (msg.length + 1) % 64) % 64
  msg ++ 0x80 :: List.replicate zeros 0 ++ leBytes (8 * msg.length % 2 ^ 64) 8

/-- Split into 64-byte chunks; the fuel bounds the chunk count (the padded
message is nonempty and each chunk consumes 64 bytes). -/
def chunks64 : Nat → List Nat → List (List Nat)
  | 0, _ => []
  | n + 1, l => if l.isEmpty then [] else l.take 64 :: chunks64 n (l.drop 64)

/-- The MD5 state after digesting a byte list. -/
def md5Raw (msg : List Nat) : Nat × Nat × Nat × Nat :=
  let padded := md5Pad msg
  (chunks64 padded.length padded).foldl
    (fun st chunk => md5Chunk st (toWords chunk))
    (0x67452301, 0xefcdab89, 0x98badcfe, 0x10325476)

/-- Lowercase hexadecimal digit. -/
def hexDigit (n : Nat) : Char :=
  Char.ofNat (if n < 10 then 48 + n else 87 + n)

/-- Two lowercase hexadecimal digits of a byte. -/
def hexByte (b : Nat) : List Char :=
  [hexDigit (b / 16), hexDigit (b % 16)]

/-- A 32-bit word as eight hex digits, bytes little-endian first. -/
def wordLEHex (w : Nat) : List Char :=
  List.flatten ((leBytes w 4).map hexByte)

/-- The 32-character lowercase hexadecimal MD5 digest of a byte list, as
produced by `g_checksum_get_string`. -/
def md5Hex (msg : List Nat) : String :=
  let r := md5Raw msg
  String.mk (List.flatten ([r.1, r.2.1, r.2.2.1, r.2.2.2].map wordLEHex))

/-- `media_art_checksum_for_data` (cache.c:225-243) with `G_CHECKSUM_MD5`. -/
def media_art_checksum_for_data (data : List Nat) : String :=
  md5Hex data

/-- UTF-8 bytes of one character. -/
def utf8Bytes (c : Char) : List Nat :=
  let n := c.toNat
  if n < 128 then [n]
  else if n < 2048 then [192 ||| (n >>> 6), 128 ||| (n &&& 63)]
  else if n < 65536 then
    [224 ||| (n >>> 12), 128 ||| ((n >>> 6) &&& 63), 128 ||| (n &&& 63)]
  else
    [240 ||| (n >>> 18), 128 ||| ((n >>> 12) &&& 63),
     128 ||| ((n >>> 6) &&& 63), 128 ||| (n &&& 63)]

/-- UTF-8 bytes of a character list. -/
def utf8Encode (l : List Char) : List Nat :=
  List.flatten (l.map utf8Bytes)

/-! ### Key derivation (`media_art_get_file`, cache.c:278-367) -/

/-- Modelled from the spec: `g_utf8_normalize (…, G_NORMALIZE_NFKD)` (GLib,
external to this repository) — Unicode NFKD decomposition, the identity on
characters without compatibility decompositions, which covers all of ASCII. -/
def g_utf8_normalize_nfkd (l : List Char) : List Char :=
  l

/-- The MD5 of a single space, hard-coded as `space_checksum`
(cache.c:284). -/
def space_checksum : String :=
  "7215ee9c7d9dc229d2921a40e899ec5f"

/-- The per-field digest of `media_art_get_file` (cache.c:311-327): strip,
NFKD-normalize, lowercase, then MD5 the UTF-8 bytes. -/
def fieldChecksum (s : String) : String :=
  media_art_checksum_for_data
    (utf8Encode (g_utf8_strdown
      (g_utf8_normalize_nfkd (media_art_strip_invalid_entities s).data)))

/-- The `g_strdup_printf ("%s-%s-%s.jpeg", …)` filename assembly
(cache.c:341). -/
def artFileNameFrom (pfx : Option String) (a b : String) : String :=
  pfx.getD "album" ++ "-" ++ a ++ "-" ++ b ++ ".jpeg"

/-- The cache art filename computed by `media_art_get_file`
(cache.c:278-367): digest slots per the artist/title presence rules of
cache.c:333-339; `none` when both fields are absent (the
`g_return_val_if_fail` guard). -/
def art_filename (artist title pfx : Option String) : Option String :=
  match artist, title with
  | none, none => none
  | some ar, some t =>
    some (artFileNameFrom pfx (fieldChecksum ar) (fieldChecksum t))
  | some ar, none =>
    some (artFileNameFrom pfx (fieldChecksum ar) space_checksum)
  | none, some t =>
    some (artFileNameFrom pfx (fieldChecksum t) space_checksum)

/-- The user cache directory (`g_get_user_cache_dir`), an arbitrary constant
of the model. -/
def user_cache_dir : String :=
  "/home/user/.cache"

/-- `media_art_get_file`: the full cache path
`<cache>/media-art/<filename>`. -/
def media_art_get_file (artist title pfx : Option String) : Option String :=
  (art_filename artist title pfx).map
    (fun f => user_cache_dir ++ "/media-art/" ++ f)

/-- `media_art_get_path` (cache.c:392-418) computes the same path as
`media_art_get_file`. -/
def media_art_get_path (artist title pfx : Option String) : Option String :=
  media_art_get_file artist title pfx

/-- Specification-side filename rule, written from the spec's words (§4.2,
claim C1): the filename is `<prefix>-<digest>-<digest>.jpeg` with prefix
defaulting to `album`; the artist digest occupies the first slot and the
title digest the second, except that when the artist is absent the title
digest occupies the first slot and the sentinel the second; the sentinel
also fills the second slot when the title is absent. -/
def spec_cache_filename (artist title pfx : Option String) : Option String :=
  match artist with
  | some ar =>
    some (artFileNameFrom pfx (fieldChecksum ar)
      (match title with
       | some t => fieldChecksum t
       | none => space_checksum))
  | none =>
    match title with
    | some t => some (artFileNameFrom pfx (fieldChecksum t) space_checksum)
    | none => none

/-! ### Candidate classification and selection
(`classify_image_file`, `media_art_find_by_artist_and_title`,
extract.c:571-714)

The directory enumeration (`g_dir_read_name`) is I/O; its outcome is
supplied to the model as the list of directory entry names, in read order.
Every entry is assumed convertible to UTF-8 (the C code skips entries that
are not). -/

/-- `MediaArtType` (extract.h): `none` is the invalid value rejected by the
`g_return_val_if_fail` range guards. -/
inductive MediaArtType where
  | none
  | album
  | video
deriving DecidableEq, Repr

/-- `media_art_type_name` (extract.c:73-77). -/
def media_art_type_name : MediaArtType → String
  | .none => "invalid"
  | .album => "album"
  | .video => "video"

/-- `strstr (hay, needle) != NULL`: `needle` occurs as a contiguous substring
of `hay`. -/
def strstrB : List Char → List Char → Bool
  | hay, needle =>
    if needle.isPrefixOf hay then true
    else
      match hay with
      | [] => needle.isEmpty
      | _ :: t => strstrB t needle

/-- `MediaArtSearch` (extract.c:79-84): the uri field is irrelevant to
classification and omitted. `artist_strdown` is `none` when the artist was
NULL (extract.c:548-552); `title_strdown` is always computed. -/
structure MediaArtSearch where
  type : MediaArtType
  artist_strdown : Option (List Char)
  title_strdown : List Char
deriving DecidableEq

/-- `ImageMatchType` (extract.c:86-91). -/
inductive ImageMatchType where
  | exact
  | exactSmall
  | sameDirectory
deriving DecidableEq, Repr

/-- `media_art_search_new` (extract.c:535-559): strip and lowercase the
artist (when present) and the title. -/
def media_art_search_new (type : MediaArtType) (artist : Option String)
    (title : String) : MediaArtSearch :=
  { type := type
    artist_strdown :=
      artist.map (fun a => g_utf8_strdown (media_art_strip_invalid_entities a).data)
    title_strdown := g_utf8_strdown (media_art_strip_invalid_entities title).data }

/-- `classify_image_file` (extract.c:571-611) on the lowercased file name. -/
def classify_image_file (search : MediaArtSearch)
    (file_name_strdown : List Char) : ImageMatchType :=
  if (match search.artist_strdown with
      | some a => !a.isEmpty && strstrB file_name_strdown a
      | none => false) ||
     (!search.title_strdown.isEmpty &&
      strstrB file_name_strdown search.title_strdown) then
    .exact
  else if search.type = .album &&
      (strstrB file_name_strdown "cover".data ||
       strstrB file_name_strdown "front".data ||
       strstrB file_name_strdown "folder".data) then
    .exact
  else if search.type = .album && strstrB file_name_strdown "albumart".data &&
      strstrB file_name_strdown "large".data then
    .exact
  else if search.type = .album && strstrB file_name_strdown "albumart".data &&
      strstrB file_name_strdown "small".data then
    .exactSmall
  else if search.type = .video &&
      (strstrB file_name_strdown "folder".data ||
       strstrB file_name_strdown "poster".data) then
    .exact
  else
    .sameDirectory

/-- The suffix test of the scan loop (extract.c:667-669): the lowercased name
ends in `jpeg`, `jpg` or `png` (note: no dot is required by the code). -/
def scanSuffixOk (name_strdown : List Char) : Bool :=
  "jpeg".data.isSuffixOf name_strdown || "jpg".data.isSuffixOf name_strdown ||
    "png".data.isSuffixOf name_strdown

/-- One iteration of the scan loop of `media_art_find_by_artist_and_title`
(extract.c:654-679): a directory entry with an accepted suffix is prepended
(`g_list_prepend`) to the list of its classification. -/
def scanStep (search : MediaArtSearch)
    (acc : List (List Char) × List (List Char) × List (List Char))
    (name : List Char) :
    List (List Char) × List (List Char) × List (List Char) :=
  let nd := g_utf8_strdown name
  if scanSuffixOk nd then
    match classify_image_file search nd with
    | .exact => (name :: acc.1, acc.2.1, acc.2.2)
    | .exactSmall => (acc.1, name :: acc.2.1, acc.2.2)
    | .sameDirectory => (acc.1, acc.2.1, name :: acc.2.2)
  else acc

/-- The scan loop over the directory entries, in read order; the three
components are the `exact`, `exactSmall` and `sameDirectory` lists. -/
def scanLists (search : MediaArtSearch) (names : List (List Char)) :
    List (List Char) × List (List Char) × List (List Char) :=
  names.foldl (scanStep search) ([], [], [])

/-- Whether a directory entry is scanned into the `exact` list. -/
def scanExactP (search : MediaArtSearch) (name : List Char) : Bool :=
  scanSuffixOk (g_utf8_strdown name) &&
    decide (classify_image_file search (g_utf8_strdown name) =
      ImageMatchType.exact)

/-- Whether a directory entry is scanned into the `exactSmall` list. -/
def scanSmallP (search : MediaArtSearch) (name : List Char) : Bool :=
  scanSuffixOk (g_utf8_strdown name) &&
    decide (classify_image_file search (g_utf8_strdown name) =
      ImageMatchType.exactSmall)

/-- Whether a directory entry is scanned into the `sameDirectory` list. -/
def scanSameDirP (search : MediaArtSearch) (name : List Char) : Bool :=
  scanSuffixOk (g_utf8_strdown name) &&
    decide (classify_image_file search (g_utf8_strdown name) =
      ImageMatchType.sameDirectory)

/-- The selection policy of `media_art_find_by_artist_and_title`
(extract.c:686-694): any exact match (the head of the prepend-built list,
i.e. the last one encountered), else any exact-small match, else — only for
videos — the sole same-directory image if it is unique. Returns the chosen
entry name; the C code then prefixes the directory path. -/
def media_art_find_by_artist_and_title (type : MediaArtType)
    (artist : Option String) (title : String) (names : List (List Char)) :
    Option (List Char) :=
  if type = .none then none
  else
    let search := media_art_search_new type artist title
    let lists := scanLists search names
    if lists.1.length > 0 then lists.1.head?
    else if lists.2.1.length > 0 then lists.2.1.head?
    else if type = .video && lists.2.2.length = 1 then lists.2.2.head?
    else none

/-- Specification-side suffix rule, written from the spec's words (§4.5,
claim C7): only filenames ending in `.jpeg`, `.jpg`, or `.png`
(case-insensitively) are considered. -/
def spec_suffix_ok (name : List Char) : Bool :=
  ".jpeg".data.isSuffixOf (g_utf8_strdown name) ||
    ".jpg".data.isSuffixOf (g_utf8_strdown name) ||
    ".png".data.isSuffixOf (g_utf8_strdown name)

/-- Specification-side keyword rule for claim C9: the type-specific filename
keywords that can produce an `exact` classification without an artist/title
substring match (extract.c:582-607). -/
def spec_keyword_exact (type : MediaArtType) (name_strdown : List Char) : Bool :=
  (type = .album &&
    (strstrB name_strdown "cover".data || strstrB name_strdown "front".data ||
     strstrB name_strdown "folder".data ||
     (strstrB name_strdown "albumart".data &&
      strstrB name_strdown "large".data))) ||
  (type = .video &&
    (strstrB name_strdown "folder".data || strstrB name_strdown "poster".data))

/-! ### Filesystem model (`CacheStore`)

The reconciliation engine mutates the filesystem through a fixed set of
primitives (existence test, read, write, rename, symlink, unlink, copy,
mtime get/set). The model is an association list from paths to nodes; a
`World` carries it together with success flags for the fallible primitives
(a `false` flag models the corresponding OS call failing, e.g. `EPERM` for
`symlink(2)`), and a clock value used as the mtime of newly written files.
Symlinks are resolved one level: every symlink this library creates points
directly at a regular file. -/

/-- A filesystem node: a regular file with content bytes and mtime, or a
symbolic link. -/
inductive Node where
  | reg (data : List Nat) (mtime : Nat)
  | link (target : String) (mtime : Nat)
deriving DecidableEq, Repr

/-- Paths to nodes, no duplicate keys among well-formed values. -/
abbrev FS := List (String × Node)

/-- Association-list lookup. -/
def FS.lookup (fs : FS) (p : String) : Option Node :=
  match fs with
  | [] => none
  | (q, n) :: rest => if q = p then some n else FS.lookup rest p

/-- Remove every binding of path `p`. -/
def FS.erase (fs : FS) (p : String) : FS :=
  match fs with
  | [] => []
  | (q, n) :: rest => if q = p then FS.erase rest p else (q, n) :: FS.erase rest p

/-- Bind path `p` to node `n`, replacing any previous binding. -/
def FS.setNode (fs : FS) (p : String) (n : Node) : FS :=
  (p, n) :: FS.erase fs p

/-- Content read following at most one symlink (`g_file_read` follows
links). -/
def FS.readData (fs : FS) (p : String) : Option (List Nat) :=
  match fs.lookup p with
  | some (.reg d _) => some d
  | some (.link t _) =>
    match fs.lookup t with
    | some (.reg d _) => some d
    | _ => none
  | none => none

/-- `g_file_test (…, G_FILE_TEST_EXISTS)`. -/
def FS.testExists (fs : FS) (p : String) : Bool :=
  (fs.lookup p).isSome

/-- The mtime observed by `g_file_query_info` (follows symlinks), 0 when the
file is missing — exactly the value `get_mtime` (extract.c:1290-1314)
produces, which returns 0 on error. -/
def FS.mtimeOf (fs : FS) (p : String) : Nat :=
  match fs.lookup p with
  | some (.reg _ m) => m
  | some (.link t _) =>
    match fs.lookup t with
    | some (.reg _ m) => m
    | _ => 0
  | none => 0

/-- `set_mtime` (extract.c:1280-1288): `utime` follows symlinks and its
failure is ignored. -/
def FS.stampMtime (fs : FS) (p : String) (m : Nat) : FS :=
  match fs.lookup p with
  | some (.reg d _) => fs.setNode p (.reg d m)
  | some (.link t _) =>
    match fs.lookup t with
    | some (.reg d _) => fs.setNode t (.reg d m)
    | _ => fs
  | none => fs

/-- The filesystem together with primitive-failure flags and a clock. -/
structure World where
  fs : FS
  symlinkOk : Bool
  renameOk : Bool
  writeOk : Bool
  copyOk : Bool
  now : Nat
deriving DecidableEq, Repr

/-- `symlink (target, linkpath)`: fails with `EEXIST` when `linkpath` already
exists, and whenever the world denies the call. -/
def World.symlink (w : World) (target linkpath : String) : Bool × World :=
  if (w.fs.lookup linkpath).isSome then (false, w)
  else if w.symlinkOk then
    (true, { w with fs := w.fs.setNode linkpath (.link target w.now) })
  else (false, w)

/-- `g_rename`: moves the node (mtime preserved), replacing any node at the
destination; fails when the source is missing or the world denies it. -/
def World.rename (w : World) (src dst : String) : Bool × World :=
  if !w.renameOk then (false, w)
  else
    match w.fs.lookup src with
    | none => (false, w)
    | some n => (true, { w with fs := (w.fs.erase src).setNode dst n })

/-- `g_unlink`, result ignored by all callers modelled here. -/
def World.unlink (w : World) (p : String) : World :=
  { w with fs := w.fs.erase p }

/-- `g_file_copy` with flags 0: fails when the destination exists
(`G_IO_ERROR_EXISTS`), reads through a source symlink, writes a fresh
regular file. -/
def World.copy (w : World) (src dst : String) : Bool × World :=
  match w.fs.readData src with
  | none => (false, w)
  | some d =>
    if (w.fs.lookup dst).isSome then (false, w)
    else if w.copyOk then
      (true, { w with fs := w.fs.setNode dst (.reg d w.now) })
    else (false, w)

/-- `g_file_set_contents`: writes via a temporary file and rename, hence
replaces a symlink at `p` by a regular file. -/
def World.setContents (w : World) (p : String) (d : List Nat) : World :=
  { w with fs := w.fs.setNode p (.reg d w.now) }

/-- A `fopen`-style write (`gdk_pixbuf_save`): writing through a symlink
overwrites the link target, not the link. -/
def World.writeThrough (w : World) (p : String) (d : List Nat) : World :=
  match w.fs.lookup p with
  | some (.link t _) => { w with fs := w.fs.setNode t (.reg d w.now) }
  | _ => { w with fs := w.fs.setNode p (.reg d w.now) }

/-- The raw fast path of `media_art_buffer_to_jpeg` (extractpixbuf.c:106-113
with `max_width_in_bytes = 0`, as initialized by `media_art_plugin_init (0)`
at extract.c:148): declared JPEG mime and the `FF D8 FF` magic. -/
def jpegRawPath (mime : Option String) (buffer : List Nat) : Bool :=
  (mime = some "image/jpeg" || mime = some "JPG") &&
    match buffer with
    | b0 :: b1 :: b2 :: _ => b0 = 255 && b1 = 216 && b2 = 255
    | _ => false

/-- `media_art_buffer_to_jpeg` (extractpixbuf.c:91-178): raw JPEG buffers are
written byte-for-byte with `g_file_set_contents`; anything else is decoded
and re-encoded through GdkPixbufLoader (the external codec, supplied as
`enc`) and written with `fopen` semantics. A NULL buffer fails the loader. -/
def media_art_buffer_to_jpeg (enc : Option String → List Nat → List Nat)
    (w : World) (buffer : Option (List Nat)) (mime : Option String)
    (target : String) : Bool × World :=
  if !w.writeOk then (false, w)
  else
    match buffer with
    | none => (false, w)
    | some b =>
      if jpegRawPath mime b then (true, w.setContents target b)
      else (true, w.writeThrough target (enc mime b))

/-- `media_art_file_to_jpeg` (extractpixbuf.c:44-70): decode the source file
and re-encode as JPEG (external codec `encFile`) with `fopen` semantics. -/
def media_art_file_to_jpeg (encFile : List Nat → List Nat) (w : World)
    (src target : String) : Bool × World :=
  match w.fs.readData src with
  | none => (false, w)
  | some d =>
    if w.writeOk then (true, w.writeThrough target (encFile d))
    else (false, w)

/-- `file_get_checksum_if_exists` (extract.c:270-373): `none` when the file
cannot be read; otherwise `(md5?, is_jpeg)` where — with `check_jpeg` — a
buffer not starting in `FF D8 FF` (or shorter than 3 bytes) yields no digest
and `is_jpeg = false`. -/
def file_get_checksum_if_exists (fs : FS) (path : String) (check_jpeg : Bool) :
    Option (Option String × Bool) :=
  match fs.readData path with
  | none => none
  | some d =>
    if check_jpeg then
      match d with
      | b0 :: b1 :: b2 :: _ =>
        if b0 = 255 && b1 = 216 && b2 = 255 then some (some (md5Hex d), true)
        else some (none, false)
      | _ => some (none, false)
    else some (some (md5Hex d), false)

/-- `is_buffer_jpeg` (extract.c:947-968). -/
def is_buffer_jpeg (mime : Option String) (buffer : Option (List Nat)) : Bool :=
  match buffer with
  | none => false
  | some b =>
    if b.length < 3 then false
    else if mime = some "image/jpeg" || mime = some "JPG" then true
    else
      match b with
      | b0 :: b1 :: b2 :: _ => b0 = 255 && b1 = 216 && b2 = 255
      | _ => false

/-- The path produced by `media_art_get_path`; defined whenever the title or
artist is present, which holds at every call site below. -/
def getPathStr (artist title : Option String) (type : MediaArtType) : String :=
  (media_art_get_path artist title (some (media_art_type_name type))).getD ""

/-- `media_art_set` (extract.c:970-1256). -/
def media_art_set (enc : Option String → List Nat → List Nat) (w : World)
    (buffer : Option (List Nat)) (mime : Option String) (type : MediaArtType)
    (artist title : Option String) : Bool × World :=
  if type = MediaArtType.none ∨ title = none then (false, w)
  else
    let artist_path := getPathStr artist title type
    if type ≠ MediaArtType.album ∨ artist = none ∨ artist = some " " then
      media_art_buffer_to_jpeg enc w buffer mime artist_path
    else
      let album_path := getPathStr none title type
      if !(w.fs.testExists album_path) then
        let r := media_art_buffer_to_jpeg enc w buffer mime album_path
        if !r.1 then (false, r.2)
        else r.2.symlink album_path artist_path
      else
        match file_get_checksum_if_exists w.fs album_path false with
        | none => (true, w)
        | some md5_album =>
          if is_buffer_jpeg mime buffer then
            if buffer.map media_art_checksum_for_data = md5_album.1 then
              w.symlink album_path artist_path
            else
              media_art_buffer_to_jpeg enc w buffer mime artist_path
          else
            let temp := album_path ++ "-tmp"
            let r := media_art_buffer_to_jpeg enc w buffer mime temp
            if !r.1 then (false, r.2.unlink temp)
            else
              match file_get_checksum_if_exists r.2.fs temp false with
              | none => (false, r.2.unlink temp)
              | some md5_tmp =>
                if md5_tmp.1 = md5_album.1 then
                  let r2 := r.2.symlink album_path artist_path
                  (r2.1, r2.2.unlink temp)
                else
                  let r2 := r.2.rename temp artist_path
                  (r2.1, r2.2.unlink temp)

/-- `convert_from_other_format` (extract.c:375-533). -/
def convert_from_other_format (encFile : List Nat → List Nat) (w : World)
    (found target album_path : String) (artist : Option String) :
    Bool × World :=
  let target_temp := target ++ "-tmp"
  let r := media_art_file_to_jpeg encFile w found target_temp
  if !r.1 then (false, r.2.unlink target_temp)
  else if artist = none ∨ artist = some " " then
    let r2 := r.2.rename target_temp album_path
    if !r2.1 then (false, r2.2.unlink target_temp) else (true, r2.2)
  else
    match file_get_checksum_if_exists r.2.fs target_temp false with
    | none => (false, r.2.unlink target_temp)
    | some sum1 =>
      match file_get_checksum_if_exists r.2.fs album_path false with
      | some sum2 =>
        if sum1.1 = sum2.1 then
          let r2 := r.2.symlink album_path target
          (r2.1, r2.2.unlink target_temp)
        else
          let r2 := r.2.rename target_temp album_path
          (r2.1, r2.2)
      | none =>
        let r2 := r.2.rename target_temp album_path
        if !r2.1 then (false, r2.2.unlink target_temp)
        else
          let r3 := r2.2.symlink album_path target
          (r3.1, r3.2)

/-- `get_heuristic` (extract.c:716-945). The parent directory of the media
file is given as its path and its entry list. Note extract.c:728/772-797:
in the non-album (or blank-artist) JPEG branch `retval` is never assigned,
so that branch reports `FALSE` even when the copy succeeds. -/
def get_heuristic (encFile : List Nat → List Nat) (w : World)
    (type : MediaArtType) (dirname : String) (names : List (List Char))
    (artist title : Option String) : Bool × World :=
  if title = none ∨ title = some "" then (false, w)
  else
    let t := title.getD ""
    let artist_stripped := artist.map media_art_strip_invalid_entities
    let title_stripped := media_art_strip_invalid_entities t
    let target := getPathStr artist_stripped (some title_stripped) type
    match media_art_find_by_artist_and_title type artist t names with
    | none => (false, w)
    | some name =>
      let art_file_path := dirname ++ "/" ++ String.mk name
      if "jpeg".data.isSuffixOf art_file_path.data ∨
          "jpg".data.isSuffixOf art_file_path.data then
        if type ≠ MediaArtType.album ∨ artist = none ∨ artist = some " " then
          let r := w.copy art_file_path target
          (false, r.2)
        else
          match file_get_checksum_if_exists w.fs art_file_path true with
          | none => (false, w)
          | some s1 =>
            let album_path := getPathStr none (some title_stripped) type
            if s1.2 then
              match file_get_checksum_if_exists w.fs album_path false with
              | some s2 =>
                if s1.1 = s2.1 then w.symlink album_path target
                else w.copy art_file_path target
              | none =>
                let r := w.copy art_file_path album_path
                if !r.1 then (false, r.2)
                else r.2.symlink album_path target
            else
              convert_from_other_format encFile w art_file_path target
                album_path artist
      else if "png".data.isSuffixOf art_file_path.data then
        let album_path := getPathStr none (some title_stripped) type
        convert_from_other_format encFile w art_file_path target album_path
          artist
      else (false, w)

/-- `media_art_process_buffer` (extract.c:1489-1602). The related media file
is outside the cache filesystem; only its mtime enters the algorithm. The
`g_return_val_if_fail` guards on buffer and fields are modelled; cancellation
is not. `set_mtime` is applied after `media_art_set` regardless of its
outcome, exactly as at extract.c:1581-1582. -/
def media_art_process_buffer (enc : Option String → List Nat → List Nat)
    (w : World) (type : MediaArtType) (force : Bool) (media_mtime : Nat)
    (buffer : Option (List Nat)) (mime : Option String)
    (artist title : Option String) : Bool × World :=
  if type = MediaArtType.none ∨ buffer = none ∨
      (artist = none ∧ title = none) then (false, w)
  else
    let cache_art_path := getPathStr artist title type
    let cache_mtime := w.fs.mtimeOf cache_art_path
    if force ∨ cache_mtime = 0 ∨ media_mtime > cache_mtime then
      let r := media_art_set enc w buffer mime type artist title
      (r.1, { r.2 with fs := r.2.fs.stampMtime cache_art_path media_mtime })
    else (true, w)

/-- The per-process memo table of `MediaArtProcess` (extract.c:67-71):
the set of keys inserted into `media_art_cache`. -/
structure MediaArtProcess where
  media_art_cache : List String
deriving DecidableEq, Repr

/-- `get_heuristic_for_parent_path` (extract.c:1316-1346). -/
def get_heuristic_for_parent_path (dirname : String) (type : MediaArtType)
    (artist title : Option String) : String :=
  dirname ++ ":" ++ media_art_type_name type ++ ":" ++ artist.getD "" ++
    ":" ++ title.getD ""

/-- `media_art_process_file` (extract.c:1737-1842): staleness check, memo
lookup, heuristic, mtime stamp and memo insert on success. Note the function
ignores the force flag and that a failed heuristic neither stamps the mtime
nor memoizes. -/
def media_art_process_file (encFile : List Nat → List Nat) (w : World)
    (proc : MediaArtProcess) (type : MediaArtType) (dirname : String)
    (names : List (List Char)) (media_mtime : Nat)
    (artist title : Option String) : Bool × World × MediaArtProcess :=
  if type = MediaArtType.none ∨ (artist = none ∧ title = none) then
    (false, w, proc)
  else
    let cache_art_path := getPathStr artist title type
    let cache_mtime := w.fs.mtimeOf cache_art_path
    if cache_mtime = 0 ∨ cache_mtime < media_mtime then
      let key := get_heuristic_for_parent_path dirname type artist title
      if proc.media_art_cache.contains key then (true, w, proc)
      else
        let r := get_heuristic encFile w type dirname names artist title
        if !r.1 then (false, r.2, proc)
        else
          (true, { r.2 with fs := r.2.fs.stampMtime cache_art_path media_mtime },
           { media_art_cache := key :: proc.media_art_cache })
    else (true, w, proc)

/-- The guard chain under which `media_art_set` reaches its step-4 JPEG fast
path (extract.c:1022, 1048, 1088-1104, 1111): album type, artist present and
not blank, the AlbumArtifact exists and its digest is readable, and
`is_buffer_jpeg` accepts the buffer. -/
def media_art_set_takes_jpeg_path (w : World) (buffer : Option (List Nat))
    (mime : Option String) (type : MediaArtType)
    (artist title : Option String) : Bool :=
  type = MediaArtType.album && artist ≠ none && artist ≠ some " " &&
    title ≠ none && w.fs.testExists (getPathStr none title type) &&
    (file_get_checksum_if_exists w.fs (getPathStr none title type) false).isSome &&
    is_buffer_jpeg mime buffer


/-! ### Normalizer lemmas and claim theorems -/

lemma toNat_ofNat_of_lt {n : Nat} (h : n < 55296) : (Char.ofNat n).toNat = n := by
  have hv : n.isValidChar := Or.inl h
  rw [Char.ofNat, dif_pos hv]
  rfl

lemma charDown_charDown (c : Char) : charDown (charDown c) = charDown c := by
  unfold charDown
  by_cases h : 65 ≤ c.toNat ∧ c.toNat ≤ 90
  · rw [if_pos h]
    have ht : (Char.ofNat (c.toNat + 32)).toNat = c.toNat + 32 :=
      toNat_ofNat_of_lt (by omega)
    have hn : ¬(65 ≤ (Char.ofNat (c.toNat + 32)).toNat ∧
        (Char.ofNat (c.toNat + 32)).toNat ≤ 90) := by rw [ht]; omega
    rw [if_neg hn]
  · rw [if_neg h, if_neg h]

lemma strdown_fixed {c : Char} {l : List Char} (h : c ∈ g_utf8_strdown l) :
    charDown c = c := by
  obtain ⟨a, _, rfl⟩ := List.mem_map.1 h
  exact charDown_charDown a

lemma convertChar_cases (c : Char) : convertChar c = c ∨ convertChar c = ' ' := by
  unfold convertChar
  split
  · exact Or.inr rfl
  · exact Or.inl rfl

lemma convertChar_ne_tab (c : Char) : convertChar c ≠ '\t' := by
  unfold convertChar
  split
  · decide
  · assumption

lemma convertChar_eq_self {c : Char} (h : c ≠ '\t') : convertChar c = c := by
  unfold convertChar
  exact if_neg h


lemma collapseOnce_cons_cons (c d : Char) (r : List Char) (h : ¬(c = ' ' ∧ d = ' ')) :
    collapseOnce (c :: d :: r) = c :: collapseOnce (d :: r) := by
  rw [collapseOnce.eq_def]
  split
  · rename_i rest heq
    injection heq with h1 h2
    injection h2 with h3 h4
    exact absurd ⟨h1, h3⟩ h
  · rename_i c2 rest2 hcond heq
    injection heq with h1 h2
    subst h1
    subst h2
    rfl
  · rename_i heq
    exact absurd heq (by simp)

lemma collapseOnce_singleton (c : Char) : collapseOnce [c] = [c] := by
  rw [collapseOnce.eq_def]
  split
  · rename_i rest heq
    exact absurd heq (by simp)
  · rename_i c2 rest2 hcond heq
    injection heq with h1 h2
    subst h1
    subst h2
    rfl
  · rename_i heq
    exact absurd heq (by simp)

lemma collapseOnce_cons_of (c : Char) (rest : List Char)
    (hne : ∀ r, c = ' ' → rest = ' ' :: r → False) :
    collapseOnce (c :: rest) = c :: collapseOnce rest := by
  cases rest with
  | nil => exact collapseOnce_singleton c
  | cons d r =>
    refine collapseOnce_cons_cons c d r ?_
    rintro ⟨rfl, rfl⟩
    exact hne r rfl rfl

lemma collapseOnce_sublist (l : List Char) : (collapseOnce l).Sublist l := by
  induction l using collapseOnce.induct with
  | case1 rest ih =>
    rw [collapseOnce]
    exact ((ih.cons ' ').cons₂ ' ')
  | case2 c rest hne ih =>
    rw [collapseOnce_cons_of c rest hne]
    exact ih.cons₂ c
  | case3 => simp [collapseOnce]

lemma collapseOnce_length_le (l : List Char) :
    (collapseOnce l).length ≤ l.length :=
  (collapseOnce_sublist l).length_le

lemma hasDoubleSpace_cons {c : Char} {rest : List Char}
    (h : hasDoubleSpace (c :: rest) = false) : hasDoubleSpace rest = false := by
  cases rest with
  | nil => rfl
  | cons d r =>
    rw [hasDoubleSpace] at h
    simp only [Bool.or_eq_false_iff] at h
    exact h.2

lemma collapseOnce_length_lt {l : List Char} (h : hasDoubleSpace l = true) :
    (collapseOnce l).length < l.length := by
  induction l using collapseOnce.induct with
  | case1 rest ih =>
    rw [collapseOnce]
    have := collapseOnce_length_le rest
    simp only [List.length_cons]
    omega
  | case2 c rest hne ih =>
    have hrest : hasDoubleSpace rest = true := by
      cases rest with
      | nil => simp [hasDoubleSpace] at h
      | cons d r =>
        rw [hasDoubleSpace] at h
        rcases Bool.or_eq_true_iff.1 h with h1 | h1
        · exfalso
          simp only [Bool.and_eq_true, beq_iff_eq] at h1
          exact hne r h1.1 (by rw [h1.2])
        · exact h1
    rw [collapseOnce_cons_of c rest hne]
    simp only [List.length_cons]
    exact Nat.succ_lt_succ (ih hrest)
  | case3 => simp [hasDoubleSpace] at h

lemma collapseLoop_no_double {n : Nat} {l : List Char} (h : l.length ≤ n) :
    hasDoubleSpace (collapseLoop n l) = false := by
  induction n generalizing l with
  | zero =>
    have : l = [] := List.eq_nil_of_length_eq_zero (Nat.le_zero.1 h)
    subst this
    rfl
  | succ n ih =>
    rw [collapseLoop]
    by_cases hd : hasDoubleSpace l = true
    · rw [if_pos hd]
      exact ih (by have := collapseOnce_length_lt hd; omega)
    · rw [if_neg hd]
      exact Bool.eq_false_iff.2 hd

lemma mem_collapseLoop {c : Char} {n : Nat} {l : List Char}
    (h : c ∈ collapseLoop n l) : c ∈ l := by
  induction n generalizing l with
  | zero => exact h
  | succ n ih =>
    rw [collapseLoop] at h
    by_cases hd : hasDoubleSpace l = true
    · rw [if_pos hd] at h
      exact (collapseOnce_sublist l).subset (ih h)
    · rwa [if_neg hd] at h

lemma collapseSpaces_no_double (l : List Char) :
    hasDoubleSpace (collapseSpaces l) = false :=
  collapseLoop_no_double le_rfl

lemma mem_collapseSpaces {c : Char} {l : List Char} (h : c ∈ collapseSpaces l) :
    c ∈ l :=
  mem_collapseLoop h

lemma collapseSpaces_eq_self {l : List Char} (h : hasDoubleSpace l = false) :
    collapseSpaces l = l := by
  rw [collapseSpaces]
  cases hl : l.length with
  | zero => rfl
  | succ n =>
    rw [collapseLoop, if_neg (by rw [h]; simp)]


lemma hasDoubleSpace_append_left {l t : List Char}
    (h : hasDoubleSpace (l ++ t) = false) : hasDoubleSpace l = false := by
  induction l using hasDoubleSpace.induct with
  | case1 => rfl
  | case2 a => rfl
  | case3 a b rest ih =>
    rw [hasDoubleSpace]
    simp only [List.cons_append] at h
    rw [hasDoubleSpace] at h
    simp only [Bool.or_eq_false_iff] at h ⊢
    exact ⟨h.1, ih (by simpa using h.2)⟩

lemma hasDoubleSpace_append_right {l t : List Char}
    (h : hasDoubleSpace (t ++ l) = false) : hasDoubleSpace l = false := by
  induction t with
  | nil => exact h
  | cons a t ih =>
    exact ih (hasDoubleSpace_cons (by simpa using h))

lemma hasDoubleSpace_prefix {l₁ l₂ : List Char} (h : l₁ <+: l₂)
    (hd : hasDoubleSpace l₂ = false) : hasDoubleSpace l₁ = false := by
  obtain ⟨t, rfl⟩ := h
  exact hasDoubleSpace_append_left hd

lemma hasDoubleSpace_suffix {l₁ l₂ : List Char} (h : l₁ <:+ l₂)
    (hd : hasDoubleSpace l₂ = false) : hasDoubleSpace l₁ = false := by
  obtain ⟨t, rfl⟩ := h
  exact hasDoubleSpace_append_right hd

lemma g_strchug_suffix (l : List Char) : g_strchug l <:+ l :=
  List.dropWhile_suffix _

lemma g_strchomp_front (l : List Char) : g_strchomp l <+: l := by
  rw [g_strchomp]
  obtain ⟨t, ht⟩ := List.dropWhile_suffix (l := l.reverse) isAsciiSpace
  refine ⟨t.reverse, ?_⟩
  rw [← List.reverse_append, ht, List.reverse_reverse]

lemma mem_g_strchug {c : Char} {l : List Char} (h : c ∈ g_strchug l) : c ∈ l :=
  (g_strchug_suffix l).sublist.subset h

lemma mem_g_strchomp {c : Char} {l : List Char} (h : c ∈ g_strchomp l) : c ∈ l :=
  (g_strchomp_front l).sublist.subset h

lemma mem_g_strstrip {c : Char} {l : List Char} (h : c ∈ g_strstrip l) : c ∈ l :=
  mem_g_strchug (mem_g_strchomp h)

lemma g_strstrip_no_double {l : List Char} (h : hasDoubleSpace l = false) :
    hasDoubleSpace (g_strstrip l) = false :=
  hasDoubleSpace_prefix (g_strchomp_front _)
    (hasDoubleSpace_suffix (g_strchug_suffix _) h)

lemma head_dropWhile {p : Char → Bool} {l : List Char} {c : Char}
    (h : (l.dropWhile p).head? = some c) : p c = false := by
  have hh := List.head?_dropWhile_not p l
  rw [h] at hh
  exact hh

lemma g_strchomp_getLast {l : List Char} {c : Char}
    (h : (g_strchomp l).getLast? = some c) : isAsciiSpace c = false := by
  rw [g_strchomp, List.getLast?_reverse] at h
  exact head_dropWhile h

lemma prefix_head? {l₁ l₂ : List Char} (h : l₁ <+: l₂) (hne : l₁ ≠ []) :
    l₂.head? = l₁.head? := by
  obtain ⟨t, rfl⟩ := h
  cases l₁ with
  | nil => exact absurd rfl hne
  | cons a r => rfl

lemma g_strstrip_head {l : List Char} {c : Char}
    (h : (g_strstrip l).head? = some c) : isAsciiSpace c = false := by
  rw [g_strstrip] at h
  have hne : g_strchomp (g_strchug l) ≠ [] := by
    intro he
    rw [he] at h
    exact Option.noConfusion h
  have hth := prefix_head? (g_strchomp_front (g_strchug l)) hne
  rw [h] at hth
  rw [g_strchug] at hth
  exact head_dropWhile hth

lemma g_strstrip_getLast {l : List Char} {c : Char}
    (h : (g_strstrip l).getLast? = some c) : isAsciiSpace c = false :=
  g_strchomp_getLast h

lemma dropWhile_eq_self_of_head {p : Char → Bool} {l : List Char}
    (h : ∀ c, l.head? = some c → p c = false) : l.dropWhile p = l := by
  cases l with
  | nil => rfl
  | cons a r =>
    rw [List.dropWhile_cons, if_neg]
    rw [h a rfl]
    simp

lemma g_strstrip_eq_self {l : List Char}
    (hh : ∀ c, l.head? = some c → isAsciiSpace c = false)
    (hl : ∀ c, l.getLast? = some c → isAsciiSpace c = false) :
    g_strstrip l = l := by
  rw [g_strstrip, g_strchug, dropWhile_eq_self_of_head hh, g_strchomp,
    dropWhile_eq_self_of_head (fun c hc => hl c (by rwa [List.head?_reverse] at hc)),
    List.reverse_reverse]


lemma find_next_block_none {l : List Char} {openC closeC : Char}
    (h : openC ∉ l) : media_art_strip_find_next_block l openC closeC = none := by
  rw [media_art_strip_find_next_block]
  have : List.findIdx? (· = openC) l = none := by
    rw [List.findIdx?_eq_none_iff]
    intro x hx
    simp only [decide_eq_false_iff_not]
    intro he
    exact h (he ▸ hx)
  rw [this]

lemma findEarliestBlock_none {l : List Char}
    (h1 : '(' ∉ l) (h2 : '{' ∉ l) (h3 : '[' ∉ l) (h4 : '<' ∉ l) :
    findEarliestBlock l = none := by
  rw [findEarliestBlock, blockPairs]
  simp only [List.foldl_cons, List.foldl_nil]
  rw [find_next_block_none h1, find_next_block_none h2,
    find_next_block_none h3, find_next_block_none h4]

lemma removeBlocks_eq_self {l : List Char} (h : findEarliestBlock l = none) :
    removeBlocks l = l := by
  rw [removeBlocks]
  cases hl : l.length with
  | zero => rfl
  | succ n => rw [removeBlocksFuel, h]

lemma filter_invalid_prop {c : Char} {l : List Char}
    (h : c ∈ List.filter (fun c => !(isInvalidChar c)) l) :
    isInvalidChar c = false := by
  have := List.of_mem_filter h
  simpa using this

lemma stripChars_char_prop {c : Char} {l : List Char} (h : c ∈ stripChars l) :
    isInvalidChar c = false ∧ charDown c = c ∧ c ≠ '\t' := by
  rw [stripChars] at h
  have h1 := mem_collapseSpaces (mem_g_strstrip h)
  obtain ⟨b, hb, rfl⟩ := List.mem_map.1 h1
  have hbinv : isInvalidChar b = false := filter_invalid_prop hb
  have hbdown : charDown b = b :=
    strdown_fixed (List.mem_of_mem_filter hb)
  rcases convertChar_cases b with hc | hc
  · rw [hc]
    refine ⟨hbinv, hbdown, ?_⟩
    rw [← hc]
    exact convertChar_ne_tab b
  · rw [hc]
    refine ⟨by decide, by decide, by decide⟩

lemma stripChars_no_double (l : List Char) :
    hasDoubleSpace (stripChars l) = false := by
  rw [stripChars]
  exact g_strstrip_no_double (collapseSpaces_no_double _)

lemma stripChars_head {l : List Char} {c : Char}
    (h : (stripChars l).head? = some c) : isAsciiSpace c = false :=
  g_strstrip_head h

lemma stripChars_getLast {l : List Char} {c : Char}
    (h : (stripChars l).getLast? = some c) : isAsciiSpace c = false :=
  g_strstrip_getLast h

lemma not_mem_of_invalid {c : Char} {l : List Char}
    (hall : ∀ x ∈ l, isInvalidChar x = false) (hc : isInvalidChar c = true) :
    c ∉ l := by
  intro hmem
  rw [hall c hmem] at hc
  exact Bool.noConfusion hc

lemma stripChars_idem (l : List Char) : stripChars (stripChars l) = stripChars l := by
  have hall : ∀ x ∈ stripChars l, isInvalidChar x = false :=
    fun x hx => (stripChars_char_prop hx).1
  have hdown : ∀ x ∈ stripChars l, charDown x = x :=
    fun x hx => (stripChars_char_prop hx).2.1
  have htab : ∀ x ∈ stripChars l, x ≠ '\t' :=
    fun x hx => (stripChars_char_prop hx).2.2
  have r1 : removeBlocks (stripChars l) = stripChars l :=
    removeBlocks_eq_self (findEarliestBlock_none
      (not_mem_of_invalid hall (by decide)) (not_mem_of_invalid hall (by decide))
      (not_mem_of_invalid hall (by decide)) (not_mem_of_invalid hall (by decide)))
  have r2 : g_utf8_strdown (stripChars l) = stripChars l := by
    rw [g_utf8_strdown, List.map_congr_left hdown, List.map_id']
  have r3 : List.filter (fun c => !(isInvalidChar c)) (stripChars l) = stripChars l := by
    rw [List.filter_eq_self]
    intro a ha
    rw [hall a ha]
    simp
  have r4 : List.map convertChar (stripChars l) = stripChars l := by
    rw [List.map_congr_left (fun a ha => convertChar_eq_self (htab a ha)), List.map_id']
  have r5 : collapseSpaces (stripChars l) = stripChars l :=
    collapseSpaces_eq_self (stripChars_no_double l)
  have r6 : g_strstrip (stripChars l) = stripChars l :=
    g_strstrip_eq_self (fun c hc => stripChars_head hc)
      (fun c hc => stripChars_getLast hc)
  calc stripChars (stripChars l)
      = g_strstrip (collapseSpaces (List.map convertChar
          (List.filter (fun c => !(isInvalidChar c))
            (g_utf8_strdown (removeBlocks (stripChars l)))))) := rfl
    _ = stripChars l := by rw [r1, r2, r3, r4, r5, r6]


/-- C1: for every input with at least one of artist/title present and every
prefix, `media_art_get_file` / `media_art_get_path` derive the cache filename
`<prefix>-<digest>-<digest>.jpeg` (prefix defaulting to `album`), each digest
the lowercase-hex MD5 of the stripped, NFKD-decomposed, lowercased UTF-8
field, with the artist digest in the first slot and the title digest in the
second, except that an absent artist puts the title digest first and the
sentinel `7215ee9c7d9dc229d2921a40e899ec5f` second (the same sentinel fills
the second slot when the title is absent); in particular artist `Beatles`
with title `Sgt. Pepper` yields
`album-2a9ea35253dbec60e76166ec8420fbda-cfba4326a32b44b8760b3a2fc827a634.jpeg`. -/
theorem C1_cache_filename :
    (∀ artist title pfx, art_filename artist title pfx =
      spec_cache_filename artist title pfx) ∧
    (∀ artist title pfx, media_art_get_file artist title pfx =
      (art_filename artist title pfx).map
        (fun f => user_cache_dir ++ "/media-art/" ++ f)) ∧
    (∀ artist title pfx, media_art_get_path artist title pfx =
      media_art_get_file artist title pfx) ∧
    art_filename (some "Beatles") (some "Sgt. Pepper") none =
      some "album-2a9ea35253dbec60e76166ec8420fbda-cfba4326a32b44b8760b3a2fc827a634.jpeg" ∧
    art_filename none (some "sgt. pepper") none =
      some "album-cfba4326a32b44b8760b3a2fc827a634-7215ee9c7d9dc229d2921a40e899ec5f.jpeg" ∧
    art_filename (some "Beatles") none none =
      some "album-2a9ea35253dbec60e76166ec8420fbda-7215ee9c7d9dc229d2921a40e899ec5f.jpeg" := by
  refine ⟨?_, ?_, ?_, by decide, by decide, by decide⟩
  · intro artist title pfx
    cases artist <;> cases title <;> rfl
  · intro artist title pfx
    rfl
  · intro artist title pfx
    rfl

/-- C3: the normalizer `media_art_strip_invalid_entities` is idempotent. -/
theorem C3_strip_invalid_entities_idempotent (s : String) :
    media_art_strip_invalid_entities (media_art_strip_invalid_entities s) =
      media_art_strip_invalid_entities s := by
  unfold media_art_strip_invalid_entities
  rw [show (String.mk (stripChars s.data)).data = stripChars s.data from rfl,
    stripChars_idem]

/-- C4: the normalizer removes earliest-starting matched bracket pairs,
lowercases, deletes invalid characters, converts tabs, collapses spaces and
trims; consequently `normalize ("cool album (CD1)") = "cool album"`,
`normalize ("met[xX[x]alli]ca") = "metallica"`, `normalize (" ") = ""` and
`normalize ("Unbalanced [brackets") = "unbalanced brackets"`. -/
theorem C4_normalizer_examples :
    media_art_strip_invalid_entities "cool album (CD1)" = "cool album" ∧
    media_art_strip_invalid_entities "met[xX[x]alli]ca" = "metallica" ∧
    media_art_strip_invalid_entities " " = "" ∧
    media_art_strip_invalid_entities "Unbalanced [brackets" =
      "unbalanced brackets" :=
  ⟨by decide, by decide, by decide, by decide⟩


/-! ### Candidate classification lemmas and claim theorems -/

lemma scanLists_concat (s : MediaArtSearch) (l : List (List Char)) (a : List Char) :
    scanLists s (l ++ [a]) = scanStep s (scanLists s l) a := by
  rw [scanLists, scanLists, List.foldl_append, List.foldl_cons, List.foldl_nil]

lemma scanLists_eq (s : MediaArtSearch) (names : List (List Char)) :
    scanLists s names =
      ((names.filter (scanExactP s)).reverse,
       (names.filter (scanSmallP s)).reverse,
       (names.filter (scanSameDirP s)).reverse) := by
  induction names using List.reverseRecOn with
  | nil => rfl
  | append_singleton l a ih =>
    rw [scanLists_concat, ih, scanStep]
    by_cases hs : scanSuffixOk (g_utf8_strdown a) = true
    · cases hcl : classify_image_file s (g_utf8_strdown a) with
      | exact =>
        simp only [hs, hcl, if_true, List.filter_append, List.filter_cons,
          List.filter_nil, scanExactP, scanSmallP, scanSameDirP, hs, hcl,
          decide_True, decide_False, Bool.and_true, Bool.and_false]
        simp [List.reverse_append]
      | exactSmall =>
        simp only [hs, hcl, if_true, List.filter_append, List.filter_cons,
          List.filter_nil, scanExactP, scanSmallP, scanSameDirP,
          decide_True, decide_False, Bool.and_true, Bool.and_false]
        simp [List.reverse_append]
      | sameDirectory =>
        simp only [hs, hcl, if_true, List.filter_append, List.filter_cons,
          List.filter_nil, scanExactP, scanSmallP, scanSameDirP,
          decide_True, decide_False, Bool.and_true, Bool.and_false]
        simp [List.reverse_append]
    · simp only [Bool.not_eq_true] at hs
      simp only [hs, Bool.false_eq_true, if_false, List.filter_append,
        List.filter_cons, List.filter_nil, scanExactP, scanSmallP,
        scanSameDirP, hs, Bool.false_and]
      simp

lemma head?_mem {α : Type} {l : List α} {a : α} (h : l.head? = some a) : a ∈ l := by
  cases l with
  | nil => exact Option.noConfusion h
  | cons b t =>
    simp only [List.head?_cons, Option.some.injEq] at h
    rw [← h]
    exact List.mem_cons_self b t

lemma exists_head? {α : Type} {l : List α} (h : l ≠ []) : ∃ a, l.head? = some a := by
  cases l with
  | nil => exact absurd rfl h
  | cons b t => exact ⟨b, rfl⟩

lemma scanExactP_classify {s : MediaArtSearch} {n : List Char}
    (h : scanExactP s n = true) :
    scanSuffixOk (g_utf8_strdown n) = true ∧
      classify_image_file s (g_utf8_strdown n) = ImageMatchType.exact := by
  rw [scanExactP, Bool.and_eq_true, decide_eq_true_iff] at h
  exact h

lemma scanSmallP_classify {s : MediaArtSearch} {n : List Char}
    (h : scanSmallP s n = true) :
    scanSuffixOk (g_utf8_strdown n) = true ∧
      classify_image_file s (g_utf8_strdown n) = ImageMatchType.exactSmall := by
  rw [scanSmallP, Bool.and_eq_true, decide_eq_true_iff] at h
  exact h

lemma scanSameDirP_classify {s : MediaArtSearch} {n : List Char}
    (h : scanSameDirP s n = true) :
    scanSuffixOk (g_utf8_strdown n) = true ∧
      classify_image_file s (g_utf8_strdown n) = ImageMatchType.sameDirectory := by
  rw [scanSameDirP, Bool.and_eq_true, decide_eq_true_iff] at h
  exact h

lemma filter_nil_of_all {s : MediaArtSearch} {names : List (List Char)}
    {p : MediaArtSearch → List Char → Bool}
    (h : ∀ n ∈ names, p s n = false) : names.filter (p s) = [] :=
  List.filter_eq_nil_iff.2 (fun n hn => by rw [h n hn]; exact Bool.false_ne_true)

/-- C6: for every scanned directory, some exact-classified image is chosen if
any exists; otherwise some exact-small image; otherwise, only for the video
type and only when exactly one same-directory image exists, that image; the
album type never falls back to same-directory. Hence an album search over
`cover.jpg` and `random.jpg` selects `cover.jpg`, and a video search over two
unrelated images selects nothing. -/
theorem C6_candidate_selection :
    (∀ (type : MediaArtType) (artist : Option String) (title : String)
        (names : List (List Char)),
      type ≠ MediaArtType.none →
      (∃ n ∈ names, scanExactP (media_art_search_new type artist title) n = true) →
      ∃ c, media_art_find_by_artist_and_title type artist title names = some c ∧
        c ∈ names ∧
        classify_image_file (media_art_search_new type artist title)
          (g_utf8_strdown c) = ImageMatchType.exact) ∧
    (∀ (type : MediaArtType) (artist : Option String) (title : String)
        (names : List (List Char)),
      type ≠ MediaArtType.none →
      (∀ n ∈ names, scanExactP (media_art_search_new type artist title) n = false) →
      (∃ n ∈ names, scanSmallP (media_art_search_new type artist title) n = true) →
      ∃ c, media_art_find_by_artist_and_title type artist title names = some c ∧
        c ∈ names ∧
        classify_image_file (media_art_search_new type artist title)
          (g_utf8_strdown c) = ImageMatchType.exactSmall) ∧
    (∀ (type : MediaArtType) (artist : Option String) (title : String)
        (names : List (List Char)),
      (∀ n ∈ names, scanExactP (media_art_search_new type artist title) n = false) →
      (∀ n ∈ names, scanSmallP (media_art_search_new type artist title) n = false) →
      type = MediaArtType.video →
      names.countP (scanSameDirP (media_art_search_new type artist title)) = 1 →
      ∃ c, media_art_find_by_artist_and_title type artist title names = some c ∧
        c ∈ names ∧
        classify_image_file (media_art_search_new type artist title)
          (g_utf8_strdown c) = ImageMatchType.sameDirectory) ∧
    (∀ (type : MediaArtType) (artist : Option String) (title : String)
        (names : List (List Char)),
      (∀ n ∈ names, scanExactP (media_art_search_new type artist title) n = false) →
      (∀ n ∈ names, scanSmallP (media_art_search_new type artist title) n = false) →
      (type = MediaArtType.album ∨
        names.countP (scanSameDirP (media_art_search_new type artist title)) ≠ 1) →
      media_art_find_by_artist_and_title type artist title names = none) ∧
    media_art_find_by_artist_and_title MediaArtType.album none "xyz"
      ["cover.jpg".data, "random.jpg".data] = some "cover.jpg".data ∧
    media_art_find_by_artist_and_title MediaArtType.video none "xyz"
      ["random1.jpg".data, "random2.jpg".data] = none := by
  refine ⟨?_, ?_, ?_, ?_, by decide, by decide⟩
  · intro type artist title names hty hex
    set s := media_art_search_new type artist title with hsdef
    have hfil : names.filter (scanExactP s) ≠ [] := by
      intro hnil
      obtain ⟨n, hn, hp⟩ := hex
      exact List.filter_eq_nil_iff.1 hnil n hn hp
    have hrev : (names.filter (scanExactP s)).reverse ≠ [] := by simpa using hfil
    obtain ⟨c, hc⟩ := exists_head? hrev
    have hcm : c ∈ names.filter (scanExactP s) := by
      have := head?_mem hc
      simpa using this
    refine ⟨c, ?_, List.mem_of_mem_filter hcm,
      (scanExactP_classify (List.of_mem_filter hcm)).2⟩
    rw [media_art_find_by_artist_and_title, if_neg hty]
    simp only [← hsdef, scanLists_eq]
    rw [if_pos (by simpa using List.length_pos.2 hrev)]
    exact hc
  · intro type artist title names hty hne hsm
    set s := media_art_search_new type artist title with hsdef
    have hfil : names.filter (scanSmallP s) ≠ [] := by
      intro hnil
      obtain ⟨n, hn, hp⟩ := hsm
      exact List.filter_eq_nil_iff.1 hnil n hn hp
    have hrev : (names.filter (scanSmallP s)).reverse ≠ [] := by simpa using hfil
    obtain ⟨c, hc⟩ := exists_head? hrev
    have hcm : c ∈ names.filter (scanSmallP s) := by
      have := head?_mem hc
      simpa using this
    refine ⟨c, ?_, List.mem_of_mem_filter hcm,
      (scanSmallP_classify (List.of_mem_filter hcm)).2⟩
    rw [media_art_find_by_artist_and_title, if_neg hty]
    simp only [← hsdef, scanLists_eq]
    rw [if_neg (by simp [filter_nil_of_all hne]),
      if_pos (by simpa using List.length_pos.2 hrev)]
    exact hc
  · intro type artist title names hne hns hv h1
    set s := media_art_search_new type artist title with hsdef
    have hlen : (names.filter (scanSameDirP s)).length = 1 := by
      rw [← h1, ← List.countP_eq_length_filter]
    obtain ⟨c, hceq⟩ := List.length_eq_one.1 hlen
    have hcm : c ∈ names.filter (scanSameDirP s) := by
      rw [hceq]
      exact List.mem_cons_self _ _
    refine ⟨c, ?_, List.mem_of_mem_filter hcm,
      (scanSameDirP_classify (List.of_mem_filter hcm)).2⟩
    rw [media_art_find_by_artist_and_title,
      if_neg (by rw [hv]; intro h; exact MediaArtType.noConfusion h)]
    simp only [← hsdef, scanLists_eq]
    rw [if_neg (by simp [filter_nil_of_all hne]),
      if_neg (by simp [filter_nil_of_all hns]),
      if_pos (by simp [hv, hceq])]
    rw [hceq]
    rfl
  · intro type artist title names hne hns hd
    set s := media_art_search_new type artist title with hsdef
    rw [media_art_find_by_artist_and_title]
    by_cases hty : type = MediaArtType.none
    · rw [if_pos hty]
    · rw [if_neg hty]
      simp only [← hsdef, scanLists_eq]
      rw [if_neg (by simp [filter_nil_of_all hne]),
        if_neg (by simp [filter_nil_of_all hns]), if_neg]
      simp only [Bool.and_eq_true, decide_eq_true_iff, not_and]
      intro hveq
      rcases hd with hd | hd
      · rw [hd] at hveq
        exact absurd hveq (by intro h; exact MediaArtType.noConfusion h)
      · rw [List.length_reverse, ← List.countP_eq_length_filter]
        exact hd

/-- C6 witness: the exact-priority branch and the album no-fallback branch
instantiated at concrete directories. -/
theorem C6_candidate_selection_witness :
    (∃ c, media_art_find_by_artist_and_title MediaArtType.album none "xyz"
        ["cover.jpg".data] = some c ∧ c ∈ ["cover.jpg".data] ∧
      classify_image_file (media_art_search_new MediaArtType.album none "xyz")
        (g_utf8_strdown c) = ImageMatchType.exact) ∧
    media_art_find_by_artist_and_title MediaArtType.album none "xyz"
      ["random.jpg".data] = none :=
  ⟨C6_candidate_selection.1 MediaArtType.album none "xyz" ["cover.jpg".data]
      (by decide) (by decide),
   C6_candidate_selection.2.2.2.1 MediaArtType.album none "xyz"
      ["random.jpg".data] (by decide) (by decide) (Or.inl rfl)⟩

/-- C7 counterexample: the code requires the suffixes `jpeg`/`jpg`/`png`
without a leading dot, so the name `foopng` — rejected by the spec's
dot-suffix rule — is classified and can be selected by a video search. -/
theorem C7_counterexample_no_dot :
    spec_suffix_ok "foopng".data = false ∧
    media_art_find_by_artist_and_title MediaArtType.video none "zzz"
      ["foopng".data] = some "foopng".data :=
  ⟨by decide, by decide⟩

/-- C7 as amended: only filenames whose lowercased form ends in `jpeg`,
`jpg`, or `png` (no dot required) are classified as candidates; every
selected name passes that suffix test. -/
theorem C7_suffix_rule (type : MediaArtType) (artist : Option String)
    (title : String) (names : List (List Char)) (c : List Char)
    (h : media_art_find_by_artist_and_title type artist title names = some c) :
    c ∈ names ∧ scanSuffixOk (g_utf8_strdown c) = true := by
  set s := media_art_search_new type artist title with hsdef
  rw [media_art_find_by_artist_and_title] at h
  by_cases hty : type = MediaArtType.none
  · rw [if_pos hty] at h
    exact Option.noConfusion h
  · rw [if_neg hty] at h
    simp only [← hsdef, scanLists_eq] at h
    split_ifs at h with h1 h2 h3
    · have hcm : c ∈ names.filter (scanExactP s) := by simpa using head?_mem h
      exact ⟨List.mem_of_mem_filter hcm,
        (scanExactP_classify (List.of_mem_filter hcm)).1⟩
    · have hcm : c ∈ names.filter (scanSmallP s) := by simpa using head?_mem h
      exact ⟨List.mem_of_mem_filter hcm,
        (scanSmallP_classify (List.of_mem_filter hcm)).1⟩
    · have hcm : c ∈ names.filter (scanSameDirP s) := by simpa using head?_mem h
      exact ⟨List.mem_of_mem_filter hcm,
        (scanSameDirP_classify (List.of_mem_filter hcm)).1⟩

/-- C7 witness: the suffix rule applied at a concrete selection. -/
theorem C7_suffix_rule_witness :
    "cover.jpg".data ∈ ["cover.jpg".data] ∧
      scanSuffixOk (g_utf8_strdown "cover.jpg".data) = true :=
  C7_suffix_rule MediaArtType.album none "xyz" ["cover.jpg".data]
    "cover.jpg".data (by decide)

lemma classify_blank_keyword {type : MediaArtType} {name : List Char}
    {a' : Option (List Char)} (ha' : a' = none ∨ a' = some [])
    (hcl : classify_image_file ⟨type, a', []⟩ name = ImageMatchType.exact) :
    spec_keyword_exact type name = true := by
  rw [classify_image_file] at hcl
  have hfirst : ((match (MediaArtSearch.mk type a' []).artist_strdown with
      | some a => !a.isEmpty && strstrB name a
      | none => false) ||
      (!(MediaArtSearch.mk type a' []).title_strdown.isEmpty &&
        strstrB name (MediaArtSearch.mk type a' []).title_strdown)) = false := by
    rcases ha' with rfl | rfl <;> simp
  rw [hfirst] at hcl
  simp only [Bool.false_eq_true, if_false] at hcl
  clear hfirst ha'
  by_cases h2 : (decide ((MediaArtSearch.mk type a' []).type = MediaArtType.album) &&
      (strstrB name "cover".data || strstrB name "front".data ||
       strstrB name "folder".data)) = true
  · clear hcl
    simp only [spec_keyword_exact, Bool.or_eq_true, Bool.and_eq_true,
      decide_eq_true_iff] at h2 ⊢
    tauto
  · rw [if_neg h2] at hcl
    by_cases h3 : (decide ((MediaArtSearch.mk type a' []).type = MediaArtType.album) &&
        strstrB name "albumart".data && strstrB name "large".data) = true
    · clear hcl h2
      simp only [spec_keyword_exact, Bool.or_eq_true, Bool.and_eq_true,
        decide_eq_true_iff] at h3 ⊢
      tauto
    · rw [if_neg h3] at hcl
      by_cases h4 : (decide ((MediaArtSearch.mk type a' []).type = MediaArtType.album) &&
          strstrB name "albumart".data && strstrB name "small".data) = true
      · rw [if_pos h4] at hcl
        exact ImageMatchType.noConfusion hcl
      · rw [if_neg h4] at hcl
        by_cases h5 : (decide ((MediaArtSearch.mk type a' []).type = MediaArtType.video) &&
            (strstrB name "folder".data || strstrB name "poster".data)) = true
        · clear hcl h2 h3 h4
          simp only [spec_keyword_exact, Bool.or_eq_true, Bool.and_eq_true,
            decide_eq_true_iff] at h5 ⊢
          tauto
        · rw [if_neg h5] at hcl
          exact ImageMatchType.noConfusion hcl

/-- C9: an empty (or absent) stripped-and-lowercased artist or title
contributes no substring match in `classify_image_file`: with both fields
blank, an `exact` classification can only come from the type-specific
keyword rules — so a blank artist/title does not make every image exact, as
`random.jpg` (classified same-directory) shows. -/
theorem C9_blank_fields_no_exact :
    (∀ (type : MediaArtType) (artist : Option String) (title : String)
        (name : List Char),
      (artist = none ∨
        g_utf8_strdown (media_art_strip_invalid_entities (artist.getD "")).data = []) →
      g_utf8_strdown (media_art_strip_invalid_entities title).data = [] →
      classify_image_file (media_art_search_new type artist title) name =
        ImageMatchType.exact →
      spec_keyword_exact type name = true) ∧
    classify_image_file (media_art_search_new MediaArtType.album (some " ") " ")
      "random.jpg".data = ImageMatchType.sameDirectory := by
  refine ⟨?_, by decide⟩
  intro type artist title name ha ht hcl
  have hsearch : ∃ a', (a' = none ∨ a' = some []) ∧
      media_art_search_new type artist title = MediaArtSearch.mk type a' [] := by
    rcases ha with ha | ha
    · refine ⟨none, Or.inl rfl, ?_⟩
      rw [media_art_search_new, ha, ht]
      rfl
    · cases artist with
      | none =>
        refine ⟨none, Or.inl rfl, ?_⟩
        rw [media_art_search_new, ht]
        rfl
      | some a =>
        refine ⟨some [], Or.inr rfl, ?_⟩
        rw [show (some a).getD "" = a from rfl] at ha
        have hmk : media_art_search_new type (some a) title =
            MediaArtSearch.mk type
              (some (g_utf8_strdown (media_art_strip_invalid_entities a).data))
              (g_utf8_strdown (media_art_strip_invalid_entities title).data) := rfl
        rw [hmk, ha, ht]
  obtain ⟨a', ha', hse⟩ := hsearch
  rw [hse] at hcl
  exact classify_blank_keyword ha' hcl

/-- C9 witness: blank artist and title with the keyword name `cover.jpg`. -/
theorem C9_blank_fields_no_exact_witness :
    spec_keyword_exact MediaArtType.album "cover.jpg".data = true :=
  C9_blank_fields_no_exact.1 MediaArtType.album none " " "cover.jpg".data
    (Or.inl rfl) (by decide) (by decide)

set_option maxRecDepth 1000000

/-! ### Filesystem lemmas shared by the reconciliation theorems -/

set_option maxHeartbeats 1000000

lemma lookup_erase (fs : FS) (p q : String) :
    (fs.erase p).lookup q = if p = q then none else fs.lookup q := by
  induction fs with
  | nil => simp [FS.erase, FS.lookup]
  | cons hd tl ih =>
    obtain ⟨r, n⟩ := hd
    simp only [FS.erase, FS.lookup]
    split_ifs with h1 h2 h3 <;> simp_all [FS.lookup]

lemma lookup_setNode (fs : FS) (p : String) (n : Node) (q : String) :
    (fs.setNode p n).lookup q = if p = q then some n else fs.lookup q := by
  rw [FS.setNode, FS.lookup]
  by_cases h : p = q
  · rw [if_pos h, if_pos h]
  · rw [if_neg h, if_neg h, lookup_erase, if_neg h]

lemma jpegRawPath_imp_is_buffer {mime : Option String} {b : List Nat}
    (h : jpegRawPath mime b = true) : is_buffer_jpeg mime (some b) = true := by
  rcases b with _ | ⟨b0, _ | ⟨b1, _ | ⟨b2, tl⟩⟩⟩
  · simp [jpegRawPath] at h
  · simp [jpegRawPath] at h
  · simp [jpegRawPath] at h
  · rw [jpegRawPath, Bool.and_eq_true] at h
    simp only [is_buffer_jpeg]
    rw [if_neg (by simp), if_pos h.1]

lemma is_buffer_not_raw {mime : Option String} {b : List Nat}
    (h : is_buffer_jpeg mime (some b) = false) : jpegRawPath mime b = false := by
  cases hr : jpegRawPath mime b
  · rfl
  · rw [jpegRawPath_imp_is_buffer hr] at h
    exact Bool.noConfusion h

lemma append_tmp_ne (s : String) : s ++ "-tmp" ≠ s := by
  intro h
  have hl := congrArg String.length h
  rw [String.length_append] at hl
  have h4 : ("-tmp" : String).length = 4 := rfl
  omega

/-- C2: reconciliation of Set-from-buffer (`media_art_set`) for type Album
with artist present and not blank.  (1) When the AlbumArtifact (title-only)
path is absent, the buffer (raw when it passes the JPEG fast path, otherwise
its encoded form) is written there and the per-entity target path becomes a
symlink to the AlbumArtifact path.  (2) When the AlbumArtifact exists and the
incoming buffer is JPEG with MD5 digest equal to the artifact's content
digest, the target is created as a symlink to the AlbumArtifact.  (3) When
those digests differ, the buffer becomes a distinct regular file at the
target path.  (4) When the buffer is not JPEG, it is converted into a
temporary file; a digest match again yields a symlink (and the temp file is
discarded), touching no path other than the target.  (5) On a digest
mismatch the temp file is renamed into place as a distinct regular file at
the target path.  (6) Concretely, two per-track entries with the same title
`T`, artists `A`/`B`, and identical JPEG art end up as two symlinks to a
single AlbumArtifact regular file that physically stores the bytes. -/
theorem C2_album_sharing :
    (∀ (enc : Option String → List Nat → List Nat) (w : World)
        (buf : List Nat) (mime : Option String) (a t : String),
      a ≠ " " → w.writeOk = true → w.symlinkOk = true →
      w.fs.lookup (getPathStr none (some t) MediaArtType.album) = none →
      w.fs.lookup (getPathStr (some a) (some t) MediaArtType.album) = none →
      getPathStr (some a) (some t) MediaArtType.album ≠
        getPathStr none (some t) MediaArtType.album →
      media_art_set enc w (some buf) mime MediaArtType.album (some a) (some t) =
        (true, { w with fs :=
          ((w.fs.setNode (getPathStr none (some t) MediaArtType.album)
              (Node.reg (if jpegRawPath mime buf then buf else enc mime buf)
                w.now)).setNode
            (getPathStr (some a) (some t) MediaArtType.album)
            (Node.link (getPathStr none (some t) MediaArtType.album) w.now)) })) ∧
    (∀ (enc : Option String → List Nat → List Nat) (w : World)
        (buf d : List Nat) (m : Nat) (mime : Option String) (a t : String),
      a ≠ " " → w.symlinkOk = true →
      w.fs.lookup (getPathStr none (some t) MediaArtType.album) =
        some (Node.reg d m) →
      w.fs.lookup (getPathStr (some a) (some t) MediaArtType.album) = none →
      is_buffer_jpeg mime (some buf) = true →
      md5Hex buf = md5Hex d →
      media_art_set enc w (some buf) mime MediaArtType.album (some a) (some t) =
        (true, { w with fs :=
          (w.fs.setNode (getPathStr (some a) (some t) MediaArtType.album)
            (Node.link (getPathStr none (some t) MediaArtType.album) w.now)) })) ∧
    (∀ (enc : Option String → List Nat → List Nat) (w : World)
        (buf d : List Nat) (m : Nat) (mime : Option String) (a t : String),
      a ≠ " " → w.writeOk = true →
      w.fs.lookup (getPathStr none (some t) MediaArtType.album) =
        some (Node.reg d m) →
      w.fs.lookup (getPathStr (some a) (some t) MediaArtType.album) = none →
      is_buffer_jpeg mime (some buf) = true →
      md5Hex buf ≠ md5Hex d →
      media_art_set enc w (some buf) mime MediaArtType.album (some a) (some t) =
        (true, { w with fs :=
          (w.fs.setNode (getPathStr (some a) (some t) MediaArtType.album)
            (Node.reg (if jpegRawPath mime buf then buf else enc mime buf)
              w.now)) })) ∧
    (∀ (enc : Option String → List Nat → List Nat) (w : World)
        (buf d : List Nat) (m : Nat) (mime : Option String) (a t : String),
      a ≠ " " → w.writeOk = true → w.symlinkOk = true →
      w.fs.lookup (getPathStr none (some t) MediaArtType.album) =
        some (Node.reg d m) →
      w.fs.lookup (getPathStr (some a) (some t) MediaArtType.album) = none →
      w.fs.lookup (getPathStr none (some t) MediaArtType.album ++ "-tmp") = none →
      getPathStr (some a) (some t) MediaArtType.album ≠
        getPathStr none (some t) MediaArtType.album ++ "-tmp" →
      is_buffer_jpeg mime (some buf) = false →
      md5Hex (enc mime buf) = md5Hex d →
      (media_art_set enc w (some buf) mime MediaArtType.album (some a)
        (some t)).1 = true ∧
      (media_art_set enc w (some buf) mime MediaArtType.album (some a)
        (some t)).2.fs.lookup
          (getPathStr (some a) (some t) MediaArtType.album) =
        some (Node.link (getPathStr none (some t) MediaArtType.album) w.now) ∧
      ∀ p, p ≠ getPathStr (some a) (some t) MediaArtType.album →
        (media_art_set enc w (some buf) mime MediaArtType.album (some a)
          (some t)).2.fs.lookup p = w.fs.lookup p) ∧
    (∀ (enc : Option String → List Nat → List Nat) (w : World)
        (buf d : List Nat) (m : Nat) (mime : Option String) (a t : String),
      a ≠ " " → w.writeOk = true → w.renameOk = true →
      w.fs.lookup (getPathStr none (some t) MediaArtType.album) =
        some (Node.reg d m) →
      w.fs.lookup (getPathStr none (some t) MediaArtType.album ++ "-tmp") = none →
      getPathStr (some a) (some t) MediaArtType.album ≠
        getPathStr none (some t) MediaArtType.album ++ "-tmp" →
      is_buffer_jpeg mime (some buf) = false →
      md5Hex (enc mime buf) ≠ md5Hex d →
      (media_art_set enc w (some buf) mime MediaArtType.album (some a)
        (some t)).1 = true ∧
      (media_art_set enc w (some buf) mime MediaArtType.album (some a)
        (some t)).2.fs.lookup
          (getPathStr (some a) (some t) MediaArtType.album) =
        some (Node.reg (enc mime buf) w.now) ∧
      ∀ p, p ≠ getPathStr (some a) (some t) MediaArtType.album →
        (media_art_set enc w (some buf) mime MediaArtType.album (some a)
          (some t)).2.fs.lookup p = w.fs.lookup p) ∧
    ((media_art_set (fun _ b => b)
        (media_art_set (fun _ b => b)
          { fs := [], symlinkOk := true, renameOk := true, writeOk := true,
            copyOk := true, now := 7 }
          (some [255, 216, 255, 1, 2]) (some "image/jpeg") MediaArtType.album
          (some "A") (some "T")).2
        (some [255, 216, 255, 1, 2]) (some "image/jpeg") MediaArtType.album
        (some "B") (some "T")).2.fs.lookup
      (getPathStr (some "A") (some "T") MediaArtType.album) =
        some (Node.link (getPathStr none (some "T") MediaArtType.album) 7)) ∧
    ((media_art_set (fun _ b => b)
        (media_art_set (fun _ b => b)
          { fs := [], symlinkOk := true, renameOk := true, writeOk := true,
            copyOk := true, now := 7 }
          (some [255, 216, 255, 1, 2]) (some "image/jpeg") MediaArtType.album
          (some "A") (some "T")).2
        (some [255, 216, 255, 1, 2]) (some "image/jpeg") MediaArtType.album
        (some "B") (some "T")).2.fs.lookup
      (getPathStr (some "B") (some "T") MediaArtType.album) =
        some (Node.link (getPathStr none (some "T") MediaArtType.album) 7)) ∧
    ((media_art_set (fun _ b => b)
        (media_art_set (fun _ b => b)
          { fs := [], symlinkOk := true, renameOk := true, writeOk := true,
            copyOk := true, now := 7 }
          (some [255, 216, 255, 1, 2]) (some "image/jpeg") MediaArtType.album
          (some "A") (some "T")).2
        (some [255, 216, 255, 1, 2]) (some "image/jpeg") MediaArtType.album
        (some "B") (some "T")).2.fs.lookup
      (getPathStr none (some "T") MediaArtType.album) =
        some (Node.reg [255, 216, 255, 1, 2] 7)) := by
  refine ⟨?_, ?_, ?_, ?_, ?_, by decide, by decide, by decide⟩
  · intro enc w buf mime a t ha hw hs halbum htarget hne
    rw [media_art_set]
    rw [if_neg (by simp)]
    rw [if_neg (by simp [ha])]
    simp only [FS.testExists, halbum, Option.isSome_none, Bool.not_false, if_true]
    rw [media_art_buffer_to_jpeg]
    rw [hw]
    simp only [Bool.not_true, Bool.false_eq_true, if_false]
    have hne2 : ¬(getPathStr none (some t) MediaArtType.album =
        getPathStr (some a) (some t) MediaArtType.album) := fun h => hne h.symm
    by_cases hraw : jpegRawPath mime buf = true
    · simp only [hraw, if_true, World.setContents, World.symlink, lookup_setNode,
        if_neg hne2, htarget, Option.isSome_none, Bool.not_true, Bool.false_eq_true,
        if_false, hs, if_true, hw]
    · simp only [hraw, Bool.false_eq_true, if_false, World.writeThrough, halbum,
        World.symlink, lookup_setNode, if_neg hne2, htarget, Option.isSome_none,
        Bool.not_true, Bool.false_eq_true, hs, if_true, hw]
  · intro enc w buf d m mime a t ha hs halbum htarget hj heq
    rw [media_art_set]
    rw [if_neg (by simp)]
    rw [if_neg (by simp [ha])]
    simp only [FS.testExists, halbum, Option.isSome_some, Bool.not_true,
      Bool.false_eq_true, if_false]
    simp only [file_get_checksum_if_exists, FS.readData, halbum, Bool.false_eq_true,
      if_false]
    simp only [hj, if_true]
    rw [if_pos (by simp [media_art_checksum_for_data, heq])]
    simp only [World.symlink, htarget, Option.isSome_none, Bool.false_eq_true,
      if_false, hs, if_true]
  · intro enc w buf d m mime a t ha hw halbum htarget hj hneq
    rw [media_art_set]
    rw [if_neg (by simp)]
    rw [if_neg (by simp [ha])]
    simp only [FS.testExists, halbum, Option.isSome_some, Bool.not_true,
      Bool.false_eq_true, if_false]
    simp only [file_get_checksum_if_exists, FS.readData, halbum, Bool.false_eq_true,
      if_false]
    simp only [hj, if_true]
    rw [if_neg (by simp [media_art_checksum_for_data, hneq])]
    rw [media_art_buffer_to_jpeg, hw]
    simp only [Bool.not_true, Bool.false_eq_true, if_false]
    by_cases hraw : jpegRawPath mime buf = true
    · simp only [hraw, if_true, World.setContents, hw]
    · simp only [hraw, Bool.false_eq_true, if_false, World.writeThrough, htarget, hw]
  · intro enc w buf d m mime a t ha hw hs halbum htarget htmp htt hj heq
    have hrun : media_art_set enc w (some buf) mime MediaArtType.album (some a) (some t) =
        (true, { w with fs :=
          (((w.fs.setNode (getPathStr none (some t) MediaArtType.album ++ "-tmp")
              (Node.reg (enc mime buf) w.now)).setNode
            (getPathStr (some a) (some t) MediaArtType.album)
            (Node.link (getPathStr none (some t) MediaArtType.album) w.now)).erase
            (getPathStr none (some t) MediaArtType.album ++ "-tmp")) }) := by
      rw [media_art_set]
      rw [if_neg (by simp)]
      rw [if_neg (by simp [ha])]
      simp only [FS.testExists, halbum, Option.isSome_some, Bool.not_true,
        Bool.false_eq_true, if_false]
      simp only [file_get_checksum_if_exists, FS.readData, halbum,
        Bool.false_eq_true, if_false]
      simp only [hj, Bool.false_eq_true, if_false]
      rw [media_art_buffer_to_jpeg, hw]
      simp only [Bool.not_true, Bool.false_eq_true, if_false]
      have htt2 : getPathStr none (some t) MediaArtType.album ++ "-tmp" ≠
          getPathStr (some a) (some t) MediaArtType.album := fun h => htt h.symm
      simp only [is_buffer_not_raw hj, Bool.false_eq_true, if_false,
        World.writeThrough, htmp]
      simp only [file_get_checksum_if_exists, FS.readData, lookup_setNode,
        eq_self_iff_true, if_true, Bool.false_eq_true, if_false]
      simp only [Bool.not_true, Bool.false_eq_true, if_false]
      rw [if_pos (by simp [heq])]
      simp only [World.symlink, lookup_setNode, if_neg htt2, htarget,
        Option.isSome_none, Bool.false_eq_true, if_false, hs, if_true,
        World.unlink]
      simp only [hs, hw]
    have htt2 : getPathStr none (some t) MediaArtType.album ++ "-tmp" ≠
        getPathStr (some a) (some t) MediaArtType.album := fun h => htt h.symm
    rw [hrun]
    refine ⟨rfl, ?_, ?_⟩
    · simp only [lookup_erase, if_neg htt2, lookup_setNode, eq_self_iff_true,
        if_true]
    · intro p hp
      have hp2 : getPathStr (some a) (some t) MediaArtType.album ≠ p :=
        fun h => hp h.symm
      simp only [lookup_erase, lookup_setNode]
      by_cases h1 : getPathStr none (some t) MediaArtType.album ++ "-tmp" = p
      · rw [if_pos h1, ← h1, htmp]
      · rw [if_neg h1, if_neg hp2, if_neg h1]
  · intro enc w buf d m mime a t ha hw hr halbum htmp htt hj hneq
    have htt2 : getPathStr none (some t) MediaArtType.album ++ "-tmp" ≠
        getPathStr (some a) (some t) MediaArtType.album := fun h => htt h.symm
    have hrun : media_art_set enc w (some buf) mime MediaArtType.album (some a) (some t) =
        (true, { w with fs :=
          ((((w.fs.setNode (getPathStr none (some t) MediaArtType.album ++ "-tmp")
                (Node.reg (enc mime buf) w.now)).erase
              (getPathStr none (some t) MediaArtType.album ++ "-tmp")).setNode
            (getPathStr (some a) (some t) MediaArtType.album)
            (Node.reg (enc mime buf) w.now)).erase
            (getPathStr none (some t) MediaArtType.album ++ "-tmp")) }) := by
      rw [media_art_set]
      rw [if_neg (by simp)]
      rw [if_neg (by simp [ha])]
      simp only [FS.testExists, halbum, Option.isSome_some, Bool.not_true,
        Bool.false_eq_true, if_false]
      simp only [file_get_checksum_if_exists, FS.readData, halbum,
        Bool.false_eq_true, if_false]
      simp only [hj, Bool.false_eq_true, if_false]
      rw [media_art_buffer_to_jpeg, hw]
      simp only [Bool.not_true, Bool.false_eq_true, if_false]
      simp only [is_buffer_not_raw hj, Bool.false_eq_true, if_false,
        World.writeThrough, htmp]
      simp only [file_get_checksum_if_exists, FS.readData, lookup_setNode,
        eq_self_iff_true, if_true, Bool.false_eq_true, if_false]
      simp only [Bool.not_true, Bool.false_eq_true, if_false]
      rw [if_neg (by simp [hneq])]
      simp only [World.rename, hr, Bool.not_true, Bool.false_eq_true, if_false,
        lookup_setNode, eq_self_iff_true, if_true, World.unlink]
      simp only [hw, hr]
    rw [hrun]
    refine ⟨rfl, ?_, ?_⟩
    · simp only [lookup_erase, if_neg htt2, lookup_setNode, eq_self_iff_true,
        if_true]
    · intro p hp
      have hp2 : getPathStr (some a) (some t) MediaArtType.album ≠ p :=
        fun h => hp h.symm
      simp only [lookup_erase, lookup_setNode]
      by_cases h1 : getPathStr none (some t) MediaArtType.album ++ "-tmp" = p
      · rw [if_pos h1, ← h1, htmp]
      · rw [if_neg h1, if_neg hp2, if_neg h1, if_neg h1]

/-- C2 witness: each reconciliation branch applied at a concrete input:
a fresh AlbumArtifact, a JPEG digest match, a JPEG digest mismatch, a
non-JPEG converted digest match and a non-JPEG converted digest mismatch. -/
theorem C2_album_sharing_witness :
    ((media_art_set (fun _ b => b)
        { fs := [], symlinkOk := true, renameOk := true, writeOk := true,
          copyOk := true, now := 7 }
        (some [255, 216, 255, 1]) (some "image/jpeg") MediaArtType.album
        (some "A") (some "T")).1 = true) ∧
    ((media_art_set (fun _ b => b)
        { fs := [(getPathStr none (some "T") MediaArtType.album,
            Node.reg [255, 216, 255, 1] 3)], symlinkOk := true,
          renameOk := true, writeOk := true, copyOk := true, now := 7 }
        (some [255, 216, 255, 1]) (some "image/jpeg") MediaArtType.album
        (some "A") (some "T")).2.fs.lookup
      (getPathStr (some "A") (some "T") MediaArtType.album) =
        some (Node.link (getPathStr none (some "T") MediaArtType.album) 7)) ∧
    ((media_art_set (fun _ b => b)
        { fs := [(getPathStr none (some "T") MediaArtType.album,
            Node.reg [255, 216, 255, 9] 3)], symlinkOk := true,
          renameOk := true, writeOk := true, copyOk := true, now := 7 }
        (some [255, 216, 255, 1]) (some "image/jpeg") MediaArtType.album
        (some "A") (some "T")).2.fs.lookup
      (getPathStr (some "A") (some "T") MediaArtType.album) =
        some (Node.reg [255, 216, 255, 1] 7)) ∧
    ((media_art_set (fun _ _ => [255, 216, 255, 9])
        { fs := [(getPathStr none (some "T") MediaArtType.album,
            Node.reg [255, 216, 255, 9] 3)], symlinkOk := true,
          renameOk := true, writeOk := true, copyOk := true, now := 7 }
        (some [1, 2, 3]) none MediaArtType.album
        (some "A") (some "T")).2.fs.lookup
      (getPathStr (some "A") (some "T") MediaArtType.album) =
        some (Node.link (getPathStr none (some "T") MediaArtType.album) 7)) ∧
    ((media_art_set (fun _ b => b)
        { fs := [(getPathStr none (some "T") MediaArtType.album,
            Node.reg [255, 216, 255, 9] 3)], symlinkOk := true,
          renameOk := true, writeOk := true, copyOk := true, now := 7 }
        (some [1, 2, 3]) none MediaArtType.album
        (some "A") (some "T")).2.fs.lookup
      (getPathStr (some "A") (some "T") MediaArtType.album) =
        some (Node.reg [1, 2, 3] 7)) := by
  refine ⟨?_, ?_, ?_, ?_, ?_⟩
  · rw [C2_album_sharing.1 (fun _ b => b)
      { fs := [], symlinkOk := true, renameOk := true, writeOk := true,
        copyOk := true, now := 7 }
      [255, 216, 255, 1] (some "image/jpeg") "A" "T"
      (by decide) rfl rfl rfl rfl (by decide)]
  · rw [C2_album_sharing.2.1 (fun _ b => b)
      { fs := [(getPathStr none (some "T") MediaArtType.album,
          Node.reg [255, 216, 255, 1] 3)], symlinkOk := true,
        renameOk := true, writeOk := true, copyOk := true, now := 7 }
      [255, 216, 255, 1] [255, 216, 255, 1] 3 (some "image/jpeg") "A" "T"
      (by decide) rfl (by decide) (by decide) (by decide) rfl]
    decide
  · rw [C2_album_sharing.2.2.1 (fun _ b => b)
      { fs := [(getPathStr none (some "T") MediaArtType.album,
          Node.reg [255, 216, 255, 9] 3)], symlinkOk := true,
        renameOk := true, writeOk := true, copyOk := true, now := 7 }
      [255, 216, 255, 1] [255, 216, 255, 9] 3 (some "image/jpeg") "A" "T"
      (by decide) rfl (by decide) (by decide) (by decide) (by decide)]
    decide
  · exact (C2_album_sharing.2.2.2.1 (fun _ _ => [255, 216, 255, 9])
      { fs := [(getPathStr none (some "T") MediaArtType.album,
          Node.reg [255, 216, 255, 9] 3)], symlinkOk := true,
        renameOk := true, writeOk := true, copyOk := true, now := 7 }
      [1, 2, 3] [255, 216, 255, 9] 3 none "A" "T"
      (by decide) rfl rfl (by decide) (by decide) (by decide) (by decide)
      rfl rfl).2.1
  · exact (C2_album_sharing.2.2.2.2.1 (fun _ b => b)
      { fs := [(getPathStr none (some "T") MediaArtType.album,
          Node.reg [255, 216, 255, 9] 3)], symlinkOk := true,
        renameOk := true, writeOk := true, copyOk := true, now := 7 }
      [1, 2, 3] [255, 216, 255, 9] 3 none "A" "T"
      (by decide) rfl rfl (by decide) (by decide) (by decide) rfl
      (by decide)).2.1

/-- C5 counterexample: the claim exempts only the force flag, but a cache
artifact whose stored mtime is 0 is also reconciled again: with the cache
file present at mtime 0 and the media mtime 0 (so cache mtime >= media
mtime and force is false), `media_art_process_buffer` still mutates the
filesystem (the AlbumArtifact is written) instead of skipping. -/
theorem C5_counterexample_zero_mtime :
    ({ fs := [(getPathStr (some "A") (some "T") MediaArtType.album,
        Node.reg [1] 0)], symlinkOk := true, renameOk := true, writeOk := true,
        copyOk := true, now := 7 } : World).fs.mtimeOf
      (getPathStr (some "A") (some "T") MediaArtType.album) = 0 ∧
    (media_art_process_buffer (fun _ b => b)
      { fs := [(getPathStr (some "A") (some "T") MediaArtType.album,
          Node.reg [1] 0)], symlinkOk := true, renameOk := true, writeOk := true,
          copyOk := true, now := 7 }
      MediaArtType.album false 0 (some [255, 216, 255, 1]) (some "image/jpeg")
      (some "A") (some "T")).1 = false ∧
    (media_art_process_buffer (fun _ b => b)
      { fs := [(getPathStr (some "A") (some "T") MediaArtType.album,
          Node.reg [1] 0)], symlinkOk := true, renameOk := true, writeOk := true,
          copyOk := true, now := 7 }
      MediaArtType.album false 0 (some [255, 216, 255, 1]) (some "image/jpeg")
      (some "A") (some "T")).2.fs.lookup
        (getPathStr none (some "T") MediaArtType.album) =
      some (Node.reg [255, 216, 255, 1] 7) :=
  ⟨by decide, by decide, by decide⟩

/-- C5 as amended: `media_art_process_buffer` skips reconciliation entirely
(no filesystem mutation, success returned) whenever the cache artifact's
stored mtime is nonzero and at least the media file's mtime, without the
force flag (a stored mtime of 0 — also what a missing artifact reports — is
treated as no valid cache and reconciled again); and after a successful
`media_art_process_file` the cache path's mtime is stamped to the media
mtime and the heuristic key memoised, so an immediately repeated identical
call performs no further mutation and returns success. -/
theorem C5_staleness_and_idempotence :
    (∀ (enc : Option String → List Nat → List Nat) (w : World)
        (type : MediaArtType) (media_mtime : Nat) (buffer : Option (List Nat))
        (mime : Option String) (artist title : Option String),
      type ≠ MediaArtType.none → buffer ≠ none →
      ¬(artist = none ∧ title = none) →
      w.fs.mtimeOf (getPathStr artist title type) ≠ 0 →
      media_mtime ≤ w.fs.mtimeOf (getPathStr artist title type) →
      media_art_process_buffer enc w type false media_mtime buffer mime artist
        title = (true, w)) ∧
    (∀ (encFile : List Nat → List Nat) (w : World) (proc : MediaArtProcess)
        (type : MediaArtType) (dirname : String) (names : List (List Char))
        (media_mtime : Nat) (artist title : Option String),
      (media_art_process_file encFile w proc type dirname names media_mtime
        artist title).1 = true →
      media_art_process_file encFile
        (media_art_process_file encFile w proc type dirname names media_mtime
          artist title).2.1
        (media_art_process_file encFile w proc type dirname names media_mtime
          artist title).2.2
        type dirname names media_mtime artist title =
      (true,
        (media_art_process_file encFile w proc type dirname names media_mtime
          artist title).2.1,
        (media_art_process_file encFile w proc type dirname names media_mtime
          artist title).2.2)) := by
  constructor
  · intro enc w type media_mtime buffer mime artist title hty hbuf hfields hmt hge
    simp only [media_art_process_buffer]
    rw [if_neg (by push_neg; exact ⟨hty, hbuf, fun h1 h2 => hfields ⟨h1, h2⟩⟩)]
    rw [if_neg]
    push_neg
    refine ⟨by simp, hmt, by omega⟩
  · intro encFile w proc type dirname names media_mtime artist title h
    by_cases hG : type = MediaArtType.none ∨ (artist = none ∧ title = none)
    · rw [media_art_process_file, if_pos hG] at h
      exact absurd h (by simp)
    · by_cases hold : w.fs.mtimeOf (getPathStr artist title type) = 0 ∨
          w.fs.mtimeOf (getPathStr artist title type) < media_mtime
      · by_cases hmem : proc.media_art_cache.contains
            (get_heuristic_for_parent_path dirname type artist title) = true
        · have hrun : media_art_process_file encFile w proc type dirname names
              media_mtime artist title = (true, w, proc) := by
            simp only [media_art_process_file]
            rw [if_neg hG, if_pos hold, if_pos hmem]
          rw [hrun]
          exact hrun
        · by_cases hok : (get_heuristic encFile w type dirname names artist
              title).1 = true
          · set r := get_heuristic encFile w type dirname names artist title
              with hrdef
            set w2 : World := { r.2 with
              fs := (r.2.fs.stampMtime (getPathStr artist title type)
                media_mtime) } with hw2
            set p2 : MediaArtProcess := { media_art_cache :=
              (get_heuristic_for_parent_path dirname type artist title ::
                proc.media_art_cache) } with hp2
            have hrun : media_art_process_file encFile w proc type dirname names
                media_mtime artist title = (true, w2, p2) := by
              simp only [media_art_process_file]
              rw [if_neg hG, if_pos hold, if_neg hmem]
              simp only [← hrdef, hok, Bool.not_true, Bool.false_eq_true,
                if_false, hw2, hp2]
            rw [hrun]
            simp only [media_art_process_file]
            rw [if_neg hG]
            by_cases hold2 : w2.fs.mtimeOf (getPathStr artist title type) = 0 ∨
                w2.fs.mtimeOf (getPathStr artist title type) < media_mtime
            · rw [if_pos hold2, if_pos (by simp)]
            · rw [if_neg hold2]
          · have hfst : (media_art_process_file encFile w proc type dirname names
                media_mtime artist title).1 = false := by
              simp only [media_art_process_file]
              rw [if_neg hG, if_pos hold, if_neg hmem]
              rw [Bool.not_eq_true] at hok
              simp only [hok, Bool.not_false, if_true]
            rw [hfst] at h
            exact Bool.noConfusion h
      · have hrun : media_art_process_file encFile w proc type dirname names
            media_mtime artist title = (true, w, proc) := by
          simp only [media_art_process_file]
          rw [if_neg hG, if_neg hold]
        rw [hrun]
        exact hrun

/-- C5 witness: the skip rule applied to a cache artifact with mtime 5 and
media mtime 3, and the idempotence rule applied to a memoised heuristic
call that succeeds on its first run. -/
theorem C5_staleness_and_idempotence_witness :
    (media_art_process_buffer (fun _ b => b)
      { fs := [(getPathStr (some "A") (some "T") MediaArtType.album,
          Node.reg [1] 5)], symlinkOk := true, renameOk := true,
          writeOk := true, copyOk := true, now := 7 }
      MediaArtType.album false 3 (some [1]) none (some "A") (some "T")) =
      (true,
        { fs := [(getPathStr (some "A") (some "T") MediaArtType.album,
            Node.reg [1] 5)], symlinkOk := true, renameOk := true,
            writeOk := true, copyOk := true, now := 7 }) ∧
    (media_art_process_file (fun b => b)
      (media_art_process_file (fun b => b)
        { fs := [], symlinkOk := true, renameOk := true, writeOk := true,
          copyOk := true, now := 7 }
        { media_art_cache := [get_heuristic_for_parent_path "dir"
            MediaArtType.album (some "A") (some "T")] }
        MediaArtType.album "dir" [] 3 (some "A") (some "T")).2.1
      (media_art_process_file (fun b => b)
        { fs := [], symlinkOk := true, renameOk := true, writeOk := true,
          copyOk := true, now := 7 }
        { media_art_cache := [get_heuristic_for_parent_path "dir"
            MediaArtType.album (some "A") (some "T")] }
        MediaArtType.album "dir" [] 3 (some "A") (some "T")).2.2
      MediaArtType.album "dir" [] 3 (some "A") (some "T")) =
      (true,
        (media_art_process_file (fun b => b)
          { fs := [], symlinkOk := true, renameOk := true, writeOk := true,
            copyOk := true, now := 7 }
          { media_art_cache := [get_heuristic_for_parent_path "dir"
              MediaArtType.album (some "A") (some "T")] }
          MediaArtType.album "dir" [] 3 (some "A") (some "T")).2.1,
        (media_art_process_file (fun b => b)
          { fs := [], symlinkOk := true, renameOk := true, writeOk := true,
            copyOk := true, now := 7 }
          { media_art_cache := [get_heuristic_for_parent_path "dir"
              MediaArtType.album (some "A") (some "T")] }
          MediaArtType.album "dir" [] 3 (some "A") (some "T")).2.2) := by
  constructor
  · exact C5_staleness_and_idempotence.1 (fun _ b => b)
      { fs := [(getPathStr (some "A") (some "T") MediaArtType.album,
          Node.reg [1] 5)], symlinkOk := true, renameOk := true,
          writeOk := true, copyOk := true, now := 7 }
      MediaArtType.album 3 (some [1]) none (some "A") (some "T")
      (by decide) (by decide) (by decide) (by decide) (by decide)
  · exact C5_staleness_and_idempotence.2 (fun b => b)
      { fs := [], symlinkOk := true, renameOk := true, writeOk := true,
        copyOk := true, now := 7 }
      { media_art_cache := [get_heuristic_for_parent_path "dir"
          MediaArtType.album (some "A") (some "T")] }
      MediaArtType.album "dir" [] 3 (some "A") (some "T") (by decide)

/-- C8 counterexample: when the symlink step of the dedup path fails in
`media_art_set` (a fresh AlbumArtifact is written, then the symlink to the
per-entity target fails), the request as a whole fails and no copy of the
art of any kind is produced at the target path — there is no fresh-copy
fallback. -/
theorem C8_counterexample_symlink_failure :
    (media_art_set (fun _ b => b)
        { fs := [], symlinkOk := false, renameOk := true, writeOk := true,
          copyOk := true, now := 7 }
        (some [255, 216, 255, 1]) (some "image/jpeg") MediaArtType.album
        (some "A") (some "T")).1 = false ∧
    ((media_art_set (fun _ b => b)
        { fs := [], symlinkOk := false, renameOk := true, writeOk := true,
          copyOk := true, now := 7 }
        (some [255, 216, 255, 1]) (some "image/jpeg") MediaArtType.album
        (some "A") (some "T")).2.fs.lookup
      (getPathStr (some "A") (some "T") MediaArtType.album)) = none := by
  refine ⟨by decide, by decide⟩

/-- C8 as amended: a failing symlink in the album-sharing dedup path of
`media_art_set` fails the whole request and leaves nothing at the
per-entity target path (the AlbumArtifact itself has been written); the
graceful degradation exists in `convert_from_other_format`, where a
failure to obtain the existing AlbumArtifact's digest makes the converted
temporary file be renamed into the AlbumArtifact path and the target
symlinked to it, with the request still succeeding. -/
theorem C8_failure_handling :
    (∀ (enc : Option String → List Nat → List Nat) (w : World)
        (buf : List Nat) (mime : Option String) (a t : String),
      a ≠ " " → w.writeOk = true → w.symlinkOk = false →
      w.fs.lookup (getPathStr none (some t) MediaArtType.album) = none →
      w.fs.lookup (getPathStr (some a) (some t) MediaArtType.album) = none →
      getPathStr (some a) (some t) MediaArtType.album ≠
        getPathStr none (some t) MediaArtType.album →
      (media_art_set enc w (some buf) mime MediaArtType.album (some a)
        (some t)).1 = false ∧
      (media_art_set enc w (some buf) mime MediaArtType.album (some a)
        (some t)).2.fs.lookup
        (getPathStr (some a) (some t) MediaArtType.album) = none) ∧
    (∀ (encFile : List Nat → List Nat) (w : World)
        (found target album_path : String) (dd : List Nat) (a : String),
      a ≠ " " → w.writeOk = true → w.renameOk = true → w.symlinkOk = true →
      w.fs.readData found = some dd →
      w.fs.lookup album_path = none →
      w.fs.lookup target = none →
      w.fs.lookup (target ++ "-tmp") = none →
      album_path ≠ target ++ "-tmp" →
      target ≠ album_path →
      (convert_from_other_format encFile w found target album_path
        (some a)).1 = true ∧
      (convert_from_other_format encFile w found target album_path
        (some a)).2.fs.lookup album_path =
        some (Node.reg (encFile dd) w.now) ∧
      (convert_from_other_format encFile w found target album_path
        (some a)).2.fs.lookup target = some (Node.link album_path w.now)) := by
  constructor
  · intro enc w buf mime a t ha hw hs halbum htarget hne
    have hne2 : ¬(getPathStr none (some t) MediaArtType.album =
        getPathStr (some a) (some t) MediaArtType.album) := fun h => hne h.symm
    have hrun : media_art_set enc w (some buf) mime MediaArtType.album (some a) (some t) =
        (false, { w with fs :=
          (w.fs.setNode (getPathStr none (some t) MediaArtType.album)
            (Node.reg (if jpegRawPath mime buf then buf else enc mime buf)
              w.now)) }) := by
      rw [media_art_set]
      rw [if_neg (by simp)]
      rw [if_neg (by simp [ha])]
      simp only [FS.testExists, halbum, Option.isSome_none, Bool.not_false, if_true]
      rw [media_art_buffer_to_jpeg, hw]
      simp only [Bool.not_true, Bool.false_eq_true, if_false]
      by_cases hraw : jpegRawPath mime buf = true
      · simp only [hraw, if_true, World.setContents, World.symlink, lookup_setNode,
          if_neg hne2, htarget, Option.isSome_none, Bool.false_eq_true, if_false,
          hs, hw, Bool.not_true, ite_self]
      · simp only [hraw, Bool.false_eq_true, if_false, World.writeThrough, halbum,
          World.symlink, lookup_setNode, if_neg hne2, htarget, Option.isSome_none,
          Bool.false_eq_true, if_false, hs, hw, Bool.not_true, ite_self]
    rw [hrun]
    refine ⟨rfl, ?_⟩
    simp only [lookup_setNode, if_neg hne2, htarget]
  · intro encFile w found target album_path dd a ha hw hr hs hfound halbum
      htarget htmp hat hta
    have htmpt : target ++ "-tmp" ≠ target := append_tmp_ne target
    have hta2 : ¬(album_path = target) := fun h => hta h.symm
    have hat2 : ¬(target ++ "-tmp" = album_path) := fun h => hat h.symm
    have hrun : convert_from_other_format encFile w found target album_path (some a) =
        (true, { w with fs :=
          ((((w.fs.setNode (target ++ "-tmp") (Node.reg (encFile dd) w.now)).erase
              (target ++ "-tmp")).setNode album_path
            (Node.reg (encFile dd) w.now)).setNode target
            (Node.link album_path w.now)) }) := by
      rw [convert_from_other_format, media_art_file_to_jpeg]
      simp only [hfound, hw, if_true]
      simp only [World.writeThrough, htmp, Bool.not_true, Bool.false_eq_true,
        if_false]
      rw [if_neg (by simp [ha])]
      simp only [file_get_checksum_if_exists, FS.readData, lookup_setNode,
        eq_self_iff_true, if_true, Bool.false_eq_true, if_false]
      simp only [if_neg hat2, halbum]
      simp only [World.rename, hr, Bool.not_true, Bool.false_eq_true, if_false,
        lookup_setNode, eq_self_iff_true, if_true]
      simp only [World.symlink, lookup_setNode, if_neg hta2, lookup_erase,
        if_neg htmpt, htarget, Option.isSome_none, Bool.false_eq_true, if_false,
        hs, if_true]
      simp only [hw, hr, hs]
    rw [hrun]
    refine ⟨rfl, ?_, ?_⟩
    · simp only [lookup_setNode, if_neg hta, eq_self_iff_true, if_true]
    · simp only [lookup_setNode, eq_self_iff_true, if_true]

/-- C8 witness: the hard failure applied with symlinks disabled on an empty
filesystem, and the degraded rename path applied to a found candidate file
whose AlbumArtifact digest is unreadable. -/
theorem C8_failure_handling_witness :
    ((media_art_set (fun _ b => b)
        { fs := [], symlinkOk := false, renameOk := true, writeOk := true,
          copyOk := true, now := 5 }
        (some [255, 216, 255, 2]) (some "image/jpeg") MediaArtType.album
        (some "A") (some "T")).1 = false) ∧
    ((media_art_set (fun _ b => b)
        { fs := [], symlinkOk := false, renameOk := true, writeOk := true,
          copyOk := true, now := 5 }
        (some [255, 216, 255, 2]) (some "image/jpeg") MediaArtType.album
        (some "A") (some "T")).2.fs.lookup
      (getPathStr (some "A") (some "T") MediaArtType.album) = none) ∧
    ((convert_from_other_format (fun _ => [5])
        { fs := [("f", Node.reg [9] 1)], symlinkOk := true, renameOk := true,
          writeOk := true, copyOk := true, now := 7 }
        "f" "t" "alb" (some "A")).1 = true) ∧
    ((convert_from_other_format (fun _ => [5])
        { fs := [("f", Node.reg [9] 1)], symlinkOk := true, renameOk := true,
          writeOk := true, copyOk := true, now := 7 }
        "f" "t" "alb" (some "A")).2.fs.lookup "alb" =
      some (Node.reg [5] 7)) ∧
    ((convert_from_other_format (fun _ => [5])
        { fs := [("f", Node.reg [9] 1)], symlinkOk := true, renameOk := true,
          writeOk := true, copyOk := true, now := 7 }
        "f" "t" "alb" (some "A")).2.fs.lookup "t" =
      some (Node.link "alb" 7)) := by
  have h1 := C8_failure_handling.1 (fun _ b => b)
    { fs := [], symlinkOk := false, renameOk := true, writeOk := true,
      copyOk := true, now := 5 }
    [255, 216, 255, 2] (some "image/jpeg") "A" "T"
    (by decide) rfl rfl rfl rfl (by decide)
  have h2 := C8_failure_handling.2 (fun _ => [5])
    { fs := [("f", Node.reg [9] 1)], symlinkOk := true, renameOk := true,
      writeOk := true, copyOk := true, now := 7 }
    "f" "t" "alb" [9] "A"
    (by decide) rfl rfl rfl (by decide) (by decide) (by decide) (by decide)
    (by decide) (by decide)
  exact ⟨h1.1, h1.2, h2.1, h2.2.1, h2.2.2⟩

/-- C10: `is_buffer_jpeg` returns false for every absent buffer and every
buffer shorter than 3 bytes, whatever the declared MIME type, so
`media_art_set` never takes the raw JPEG fast path for a sub-3-byte
buffer. -/
theorem C10_short_buffer_not_jpeg :
    (∀ (mime : Option String) (buffer : Option (List Nat)),
      (buffer = none ∨ ∃ b, buffer = some b ∧ b.length < 3) →
      is_buffer_jpeg mime buffer = false) ∧
    (∀ (w : World) (buffer : Option (List Nat)) (mime : Option String)
        (type : MediaArtType) (artist title : Option String),
      (buffer = none ∨ ∃ b, buffer = some b ∧ b.length < 3) →
      media_art_set_takes_jpeg_path w buffer mime type artist title = false) := by
  have h1 : ∀ (mime : Option String) (buffer : Option (List Nat)),
      (buffer = none ∨ ∃ b, buffer = some b ∧ b.length < 3) →
      is_buffer_jpeg mime buffer = false := by
    intro mime buffer h
    rcases h with rfl | ⟨b, rfl, hb⟩
    · rfl
    · rcases b with _ | ⟨b0, _ | ⟨b1, _ | ⟨b2, t⟩⟩⟩
      · rfl
      · rfl
      · rfl
      · exact absurd hb (by simp)
  refine ⟨h1, ?_⟩
  intro w buffer mime type artist title h
  rw [media_art_set_takes_jpeg_path, h1 mime buffer h]
  simp

/-- C10 witness: a two-byte buffer declared as image/jpeg is rejected by
`is_buffer_jpeg` and never routed to the raw fast path. -/
theorem C10_short_buffer_not_jpeg_witness :
    is_buffer_jpeg (some "image/jpeg") (some [255, 216]) = false ∧
    media_art_set_takes_jpeg_path
      { fs := [], symlinkOk := true, renameOk := true, writeOk := true,
        copyOk := true, now := 7 }
      (some [255, 216]) (some "image/jpeg") MediaArtType.album
      (some "A") (some "T") = false :=
  ⟨C10_short_buffer_not_jpeg.1 (some "image/jpeg") (some [255, 216])
      (Or.inr ⟨[255, 216], rfl, by decide⟩),
    C10_short_buffer_not_jpeg.2
      { fs := [], symlinkOk := true, renameOk := true, writeOk := true,
        copyOk := true, now := 7 }
      (some [255, 216]) (some "image/jpeg") MediaArtType.album
      (some "A") (some "T") (Or.inr ⟨[255, 216], rfl, by decide⟩)⟩

end Mediaart
